import Mathlib

/-!
# gst-rtsp-server: connection acceptor and client registry

A shallow embedding of `gst/rtsp-server/rtsp-server.c`.  Every C function that
the development reasons about is a Lean function of the same name; GLib and
libc calls the C code makes are modelled by small functions named after them,
and the answers of the operating system (socket creation, bind, listen) and of
the resolver are inputs of the model.
-/

set_option autoImplicit false

namespace GstRTSP

/-! ## GLib errors -/

/-- A `GError`: the error domain and the error code. -/
structure GError where
  domain : Nat
  code : Nat
  deriving DecidableEq, Repr

/-- The `GError **error` out-parameter of a C function: `none` is a `NULL`
pointer, `some none` a location that holds no error, `some (some e)` a
location that holds `e`. -/
abbrev ErrorLoc := Option (Option GError)

/-- GLib `g_propagate_error (dest, src)`: with `dest == NULL` the error is
freed, with an empty location it is stored, and a location that already holds
an error keeps it (GLib warns and frees `src`). -/
def g_propagate_error (dest : ErrorLoc) (src : GError) : ErrorLoc :=
  match dest with
  | none => none
  | some none => some (some src)
  | some (some e) => some (some e)

/-- What a callee that fails with `e` (or succeeds, `none`) leaves in the
caller's error location. -/
def g_set_result (dest : ErrorLoc) (e : Option GError) : ErrorLoc :=
  match e with
  | none => dest
  | some err => g_propagate_error dest err

/-- The C idiom `p ? NULL : &p` for a local `GError *p`: the callee may only
write when nothing is stored yet, so the first error is the one kept. -/
def keep_first (p : Option GError) (e : Option GError) : Option GError :=
  match p with
  | some old => some old
  | none => e

/-! ## libc `atoi` and the `guint16` conversion -/

/-- C `isspace` in the "C" locale. -/
def isspace (c : Char) : Bool :=
  c.toNat = 32 || (9 ≤ c.toNat && c.toNat ≤ 13)

/-- The digit loop of `atoi`: consume decimal digits, stop at the first other
character. -/
def atoi_digits : Nat → List Char → Nat
  | acc, [] => acc
  | acc, c :: cs =>
    if c.isDigit then atoi_digits (acc * 10 + (c.toNat - 48)) cs else acc

/-- libc `atoi`: skip leading white space, read an optional sign, then the
longest run of decimal digits; no digits give 0.  The value is the mathematical
one (C leaves the result undefined when it does not fit an `int`). -/
def atoi (s : String) : Int :=
  match s.toList.dropWhile isspace with
  | [] => 0
  | c :: cs =>
    if c = '-' then - (atoi_digits 0 cs : Int)
    else if c = '+' then (atoi_digits 0 cs : Int)
    else (atoi_digits 0 (c :: cs) : Int)

/-- Conversion of an `int` to `guint16` (the type of the local `port`):
reduction modulo 2^16. -/
def to_guint16 (i : Int) : Nat := (i % 65536).toNat

/-! ## Sockets and address enumeration -/

/-- A `GSocketFamily`. -/
inductive GSocketFamily where
  | ipv4
  | ipv6
  | unix
  deriving DecidableEq, Repr

/-- A `GSocketAddress` produced by the enumerator. -/
structure GSocketAddress where
  family : GSocketFamily
  host : String
  port : Nat
  deriving DecidableEq, Repr

/-- The `GSocketConnectable` built from the configuration. -/
inductive GSocketConnectable where
  | network_address (hostname : String) (port : Nat)
  | network_service (service : String) (protocol : String) (domain : String)
  deriving DecidableEq, Repr

/-- One address the enumerator yields, together with what the operating
system answers when the loop works on it: the error of `g_socket_new` for its
family (`none`: a socket is created), the error of `g_socket_bind` on it
(`none`: bound), the error of a later `g_socket_listen` (`none`: listening) and
the local port the bound socket reports. -/
structure Candidate where
  sockaddr : GSocketAddress
  new_error : Option GError
  bind_error : Option GError
  listen_error : Option GError
  local_port : Nat
  deriving DecidableEq, Repr

/-- What `g_socket_connectable_enumerate` stands for: the addresses
`g_socket_address_enumerator_next` returns, in order, and the error (if any)
with which the call that returns `NULL` ends the enumeration. -/
structure Enumeration where
  addrs : List Candidate
  final_error : Option GError
  deriving DecidableEq, Repr

/-- The resolver: which enumeration a connectable gives. -/
abbrev Resolver := GSocketConnectable → Enumeration

/-- A `GSocket` as far as the server configures it. -/
structure GSocket where
  family : GSocketFamily
  bound_to : Option GSocketAddress
  local_port : Nat
  keepalive : Bool
  blocking : Bool
  listen_backlog : Int
  listening : Bool
  deriving DecidableEq, Repr

/-- GLib `g_socket_new`: a fresh, unbound, blocking socket of the family. -/
def g_socket_new (family : GSocketFamily) : GSocket :=
  { family := family, bound_to := none, local_port := 0, keepalive := false,
    blocking := true, listen_backlog := 10, listening := false }

/-- GLib `g_socket_bind` when it succeeds on candidate `c`. -/
def g_socket_bind (s : GSocket) (c : Candidate) : GSocket :=
  { s with bound_to := some c.sockaddr, local_port := c.local_port }

/-! ## Calls made to collaborators, in program order -/

/-- A client handle (`GstRTSPClient *`). -/
abbrev ClientPtr := Nat

/-- The calls the server makes to GLib and to the client object, recorded in
the order the C code makes them. -/
inductive Call where
  | enumerator_next (ret : Option GSocketAddress)
  | socket_new (family : GSocketFamily) (ok : Bool)
  | socket_bind (addr : GSocketAddress) (ok : Bool)
  | socket_unref
  | set_keepalive (v : Bool)
  | set_blocking (v : Bool)
  | set_listen_backlog (n : Int)
  | socket_listen (ok : Bool)
  | client_set_server (c : ClientPtr) (set : Bool)
  | signal_connect_closed (c : ClientPtr)
  | list_prepend (c : ClientPtr)
  | list_remove (c : ClientPtr)
  | server_ref
  | server_unref
  | client_unref (c : ClientPtr)
  | client_create_from_socket (c : ClientPtr) (socket : GSocket) (ip : String)
      (port : Int) (initial_buffer : String)
  | emit_client_connected (c : ClientPtr)
  | source_new (socket : GSocket)
  | source_attach
  deriving DecidableEq, Repr

/-- A run of C code that dereferences a `NULL` pointer has no result. -/
inductive Fault where
  | null_deref
  deriving DecidableEq, Repr

/-! ## The server object -/

/-- The instance structure `GstRTSPServer` (rtsp-server.h), with the GObject
reference count. -/
structure GstRTSPServer where
  address : String
  service : String
  backlog : Int
  socket : Option GSocket
  session_pool : Option Nat
  media_mapping : Option Nat
  auth : Option Nat
  clients : List ClientPtr
  ref_count : Int
  deriving DecidableEq, Repr

/-- The state in which `gst_rtsp_server_init` leaves a new instance
(`DEFAULT_ADDRESS`, `DEFAULT_SERVICE`, `DEFAULT_BACKLOG`, no socket); the two
arguments are the objects `gst_rtsp_session_pool_new` and
`gst_rtsp_media_mapping_new` return. -/
def gst_rtsp_server_init (pool mapping : Nat) : GstRTSPServer :=
  { address := "0.0.0.0", service := "8554", backlog := 5, socket := none,
    session_pool := some pool, media_mapping := some mapping, auth := none,
    clients := [], ref_count := 1 }

/-- The function `gst_rtsp_server_set_service`. -/
def gst_rtsp_server_set_service (server : GstRTSPServer) (service : String) :
    GstRTSPServer :=
  { server with service := service }

/-- The function `gst_rtsp_server_set_address`. -/
def gst_rtsp_server_set_address (server : GstRTSPServer) (address : String) :
    GstRTSPServer :=
  { server with address := address }

/-- The function `gst_rtsp_server_set_backlog`. -/
def gst_rtsp_server_set_backlog (server : GstRTSPServer) (backlog : Int) :
    GstRTSPServer :=
  { server with backlog := backlog }

/-! ## `gst_rtsp_server_create_socket` -/

/-- The head of `gst_rtsp_server_create_socket`: `port = atoi (service)` into a
`guint16`, then `g_network_address_new (address, port)` when `port != 0` and
`g_network_service_new (service, "tcp", address)` otherwise. -/
def create_socket_connectable (server : GstRTSPServer) : GSocketConnectable :=
  let port := to_guint16 (atoi server.service)
  if port ≠ 0 then GSocketConnectable.network_address server.address port
  else GSocketConnectable.network_service server.service "tcp" server.address

/-- The locals of `gst_rtsp_server_create_socket` when the `while (TRUE)` loop
is left: the bound socket (with the candidate it was bound to) or `NULL`, the
caller's error location, and the two retained errors. -/
structure LoopExit where
  socket : Option (GSocket × Candidate)
  error : ErrorLoc
  sock_error : Option GError
  bind_error : Option GError
  calls : List Call
  deriving DecidableEq, Repr

/-- The `while (TRUE)` loop of `gst_rtsp_server_create_socket`, by recursion
on the addresses the enumerator still has to return.  When the enumerator
returns `NULL` the code reads `*error`, which faults on a `NULL` location. -/
def create_socket_loop (final_error : Option GError) :
    List Candidate → ErrorLoc → Option GError → Option GError → List Call →
    Except Fault LoopExit
  | [], error, sock_error, bind_error, calls =>
    match error with
    | none => Except.error Fault.null_deref
    | some e =>
      Except.ok
        { socket := none, error := g_set_result (some e) final_error,
          sock_error := sock_error, bind_error := bind_error,
          calls := calls ++ [Call.enumerator_next none] }
  | c :: rest, error, sock_error, bind_error, calls =>
    let calls1 := calls ++ [Call.enumerator_next (some c.sockaddr)]
    match c.new_error with
    | some e =>
      -- socket == NULL: continue
      create_socket_loop final_error rest error (keep_first sock_error (some e))
        bind_error (calls1 ++ [Call.socket_new c.sockaddr.family false])
    | none =>
      let socket := g_socket_new c.sockaddr.family
      let calls2 := calls1 ++ [Call.socket_new c.sockaddr.family true]
      match c.bind_error with
      | none =>
        -- bound: break
        Except.ok
          { socket := some (g_socket_bind socket c, c), error := error,
            sock_error := sock_error, bind_error := bind_error,
            calls := calls2 ++ [Call.socket_bind c.sockaddr true] }
      | some e =>
        create_socket_loop final_error rest error sock_error
          (keep_first bind_error (some e))
          (calls2 ++ [Call.socket_bind c.sockaddr false, Call.socket_unref])

/-- What `gst_rtsp_server_create_socket` gives back: the returned socket
(`none` is `NULL`), what the caller finds in its error location, and the calls
made. -/
structure CreateSocketResult where
  ret : Option GSocket
  error : ErrorLoc
  calls : List Call
  deriving DecidableEq, Repr

/-- The label `close_error` of `gst_rtsp_server_create_socket`: the socket is
released; `sock_error` is handed to `g_propagate_error` only when
`error == NULL` and freed otherwise; `bind_error` is propagated when
`error == NULL` or `*error == NULL` and freed otherwise. -/
def close_error (socket : Option GSocket) (error : ErrorLoc)
    (sock_error bind_error : Option GError) (calls : List Call) :
    CreateSocketResult :=
  let calls1 := if socket.isSome then calls ++ [Call.socket_unref] else calls
  let error1 : ErrorLoc :=
    match sock_error with
    | none => error
    | some se =>
      match error with
      | none => g_propagate_error error se
      | some _ => error
  let error2 : ErrorLoc :=
    match bind_error with
    | none => error1
    | some be =>
      match error1 with
      | none => g_propagate_error error1 be
      | some none => g_propagate_error error1 be
      | some (some _) => error1
  { ret := none, error := error2, calls := calls1 }

/-- The function `gst_rtsp_server_create_socket`. -/
def gst_rtsp_server_create_socket (server : GstRTSPServer) (net : Resolver)
    (error : ErrorLoc) : Except Fault CreateSocketResult :=
  let enumerator := net (create_socket_connectable server)
  match create_socket_loop enumerator.final_error enumerator.addrs error none
      none [] with
  | Except.error f => Except.error f
  | Except.ok exit =>
    match exit.socket with
    | none =>
      -- no_socket
      Except.ok
        (close_error none exit.error exit.sock_error exit.bind_error exit.calls)
    | some (socket, c) =>
      -- g_clear_error (&sock_error); g_clear_error (&bind_error);
      let s1 := { socket with keepalive := true }
      let s2 := { s1 with blocking := false }
      let s3 := { s2 with listen_backlog := server.backlog }
      let calls1 := exit.calls ++
        [Call.set_keepalive true, Call.set_blocking false,
         Call.set_listen_backlog server.backlog]
      match c.listen_error with
      | some e =>
        -- listen_failed
        Except.ok
          (close_error (some s3) (g_set_result exit.error (some e)) none none
            (calls1 ++ [Call.socket_listen false]))
      | none =>
        Except.ok
          { ret := some { s3 with listening := true }, error := exit.error,
            calls := calls1 ++ [Call.socket_listen true] }

/-! ## Client objects and the registry -/

/-- A `GstRTSPClient` object as far as the server touches it: its GObject
reference count, whether its server back-reference is set, the three
collaborators `default_create_client` hands to it, and how many times
`unmanage_client` of the server is connected to its `closed` signal. -/
structure GstRTSPClient where
  ref_count : Int
  server : Bool
  session_pool : Option Nat
  media_mapping : Option Nat
  auth : Option Nat
  closed_handlers : Nat
  deriving DecidableEq, Repr

/-- The client objects, by handle, and the next handle the allocator gives. -/
structure ClientHeap where
  obj : ClientPtr → GstRTSPClient
  next : ClientPtr

/-- Store `o` at handle `c`. -/
def ClientHeap.set (h : ClientHeap) (c : ClientPtr) (o : GstRTSPClient) :
    ClientHeap :=
  { h with obj := fun p => if p = c then o else h.obj p }

/-- Modelled from the spec: rtsp-client.c is not among the sources.  The
required client interface is `setServer(server|null)`, `accept(socket) -> bool`
and `createFromSocket(socket, ip, port, initialBuffer) -> bool`.  The two
answers are inputs; `backref_owns` says whether the back-reference installed by
`setServer` holds a reference on the server (the spec leaves it open, so both
readings are covered). -/
structure ClientImpl where
  backref_owns : Bool
  accept : ClientPtr → GSocket → Bool
  create_from_socket : ClientPtr → GSocket → String → Int → String → Bool

/-- The running system: the server instance, the client objects and the calls
made so far. -/
structure World where
  server : GstRTSPServer
  heap : ClientHeap
  calls : List Call

/-- GObject `g_object_ref (server)`. -/
def server_ref (w : World) : World :=
  { w with server := { w.server with ref_count := w.server.ref_count + 1 },
           calls := w.calls ++ [Call.server_ref] }

/-- GObject `g_object_unref (server)`. -/
def server_unref (w : World) : World :=
  { w with server := { w.server with ref_count := w.server.ref_count - 1 },
           calls := w.calls ++ [Call.server_unref] }

/-- GObject `g_object_unref (client)` (also `gst_object_unref`). -/
def client_unref (w : World) (c : ClientPtr) : World :=
  { w with
    heap := w.heap.set c
      { w.heap.obj c with ref_count := (w.heap.obj c).ref_count - 1 },
    calls := w.calls ++ [Call.client_unref c] }

/-- Modelled from the spec: `setServer(server|null)` of the client interface
(rtsp-client.c is not among the sources).  It sets or clears the client's
back-reference; when the back-reference owns a reference, the new target is
referenced and the old one released. -/
def gst_rtsp_client_set_server (impl : ClientImpl) (w : World) (c : ClientPtr)
    (server : Bool) : World :=
  let old := (w.heap.obj c).server
  let delta : Int :=
    (if impl.backref_owns && server then 1 else 0) -
    (if impl.backref_owns && old then 1 else 0)
  { server := { w.server with ref_count := w.server.ref_count + delta },
    heap := w.heap.set c { w.heap.obj c with server := server },
    calls := w.calls ++ [Call.client_set_server c server] }

/-- GLib `g_list_prepend`. -/
def g_list_prepend (l : List ClientPtr) (c : ClientPtr) : List ClientPtr :=
  c :: l

/-- GLib `g_list_remove`: removes the first element that holds the data; the
list is unchanged when none does. -/
def g_list_remove : List ClientPtr → ClientPtr → List ClientPtr
  | [], _ => []
  | x :: xs, c => if x = c then xs else x :: g_list_remove xs c

/-- The function `unmanage_client`, the handler of the client's `closed`
signal. -/
def unmanage_client (impl : ClientImpl) (w : World) (c : ClientPtr) : World :=
  let w1 := server_ref w
  let w2 := gst_rtsp_client_set_server impl w1 c false
  let w3 : World :=
    { w2 with server := { w2.server with
                clients := g_list_remove w2.server.clients c },
              calls := w2.calls ++ [Call.list_remove c] }
  let w4 := server_unref w3
  client_unref w4 c

/-- The function `manage_client`.  Every call connects `unmanage_client` to
the `closed` signal of the client once more; nothing disconnects it. -/
def manage_client (impl : ClientImpl) (w : World) (c : ClientPtr) : World :=
  let w1 := gst_rtsp_client_set_server impl w c true
  { w1 with server := { w1.server with
              clients := g_list_prepend w1.server.clients c },
            heap := w1.heap.set c
              { w1.heap.obj c with
                closed_handlers := (w1.heap.obj c).closed_handlers + 1 },
            calls := w1.calls ++
              [Call.signal_connect_closed c, Call.list_prepend c] }

/-- Run `unmanage_client (client, server)` the given number of times. -/
def run_closed_handlers (impl : ClientImpl) (c : ClientPtr) :
    Nat → World → World
  | 0, w => w
  | n + 1, w => run_closed_handlers impl c n (unmanage_client impl w c)

/-- The `closed` notification of client `c` (GObject signal emission): every
handler connected when the emission starts is run, so `unmanage_client` runs
once per connection `manage_client` made. -/
def emit_closed (impl : ClientImpl) (w : World) (c : ClientPtr) : World :=
  run_closed_handlers impl c (w.heap.obj c).closed_handlers w

/-- Object creation `gst_rtsp_client_new`: a fresh handle with one reference
and nothing configured. -/
def gst_rtsp_client_new (h : ClientHeap) : ClientPtr × ClientHeap :=
  (h.next,
   { obj := fun p =>
       if p = h.next then
         { ref_count := 1, server := false, session_pool := none,
           media_mapping := none, auth := none, closed_handlers := 0 }
       else h.obj p,
     next := h.next + 1 })

/-- The class structure `GstRTSPServerClass`: the two overridable hooks; a slot
may be `NULL`.  A hook sees the server and the client objects; `create_client`
returns the new client (or `NULL`) and the objects as it leaves them,
`accept_client` returns its `gboolean`. -/
structure GstRTSPServerClass where
  create_client :
    Option (GstRTSPServer → ClientHeap → Option ClientPtr × ClientHeap)
  accept_client :
    Option (GstRTSPServer → ClientHeap → ClientPtr → GSocket → Bool)

/-- The function `default_create_client`. -/
def default_create_client (server : GstRTSPServer) (h : ClientHeap) :
    Option ClientPtr × ClientHeap :=
  let (client, h1) := gst_rtsp_client_new h
  let h2 := h1.set client { h1.obj client with session_pool := server.session_pool }
  let h3 := h2.set client { h2.obj client with media_mapping := server.media_mapping }
  let h4 := h3.set client { h3.obj client with auth := server.auth }
  (some client, h4)

/-- The function `default_accept_client`: the result of
`gst_rtsp_client_accept (client, socket, NULL, error)`. -/
def default_accept_client (impl : ClientImpl) (_server : GstRTSPServer)
    (_h : ClientHeap) (client : ClientPtr) (socket : GSocket) : Bool :=
  impl.accept client socket

/-- The hooks `gst_rtsp_server_class_init` installs. -/
def gst_rtsp_server_class_init (impl : ClientImpl) : GstRTSPServerClass :=
  { create_client := some default_create_client,
    accept_client := some (default_accept_client impl) }

/-- GLib `G_IO_IN`. -/
def G_IO_IN : Nat := 1

/-- GLib `G_SOURCE_CONTINUE`: the value a source callback returns to stay
registered. -/
def G_SOURCE_CONTINUE : Bool := true

/-- GLib `G_SOURCE_REMOVE`: the value a source callback returns to have the
main loop remove (destroy) its source. -/
def G_SOURCE_REMOVE : Bool := false

/-- The common head of both entry points: `client = NULL; if
(klass->create_client) client = klass->create_client (server);`. -/
def call_create_client (klass : GstRTSPServerClass) (w : World) :
    Option ClientPtr × World :=
  match klass.create_client with
  | none => (none, w)
  | some hook =>
    let r := hook w.server w.heap
    (r.1, { w with heap := r.2 })

/-- The function `gst_rtsp_server_transfer_connection`. -/
def gst_rtsp_server_transfer_connection (klass : GstRTSPServerClass)
    (impl : ClientImpl) (w : World) (socket : GSocket) (ip : String)
    (port : Int) (initial_buffer : String) : Bool × World :=
  match call_create_client klass w with
  | (none, w1) =>
    -- client_failed
    (false, w1)
  | (some client, w1) =>
    let w2 : World :=
      { w1 with calls := w1.calls ++
          [Call.client_create_from_socket client socket ip port initial_buffer] }
    if !impl.create_from_socket client socket ip port initial_buffer then
      -- transfer_failed
      (false, client_unref w2 client)
    else
      let w3 := manage_client impl w2 client
      (true, { w3 with calls := w3.calls ++ [Call.emit_client_connected client] })

/-- The function `gst_rtsp_server_io_func`. -/
def gst_rtsp_server_io_func (klass : GstRTSPServerClass) (impl : ClientImpl)
    (w : World) (socket : GSocket) (condition : Nat) : Bool × World :=
  if condition &&& G_IO_IN ≠ 0 then
    match call_create_client klass w with
    | (none, w1) =>
      -- client_failed
      (false, w1)
    | (some client, w1) =>
      let result : Bool :=
        match klass.accept_client with
        | none => true
        | some hook => hook w1.server w1.heap client socket
      if !result then
        -- accept_failed
        (false, client_unref w1 client)
      else
        let w3 := manage_client impl w1 client
        (true, { w3 with calls := w3.calls ++ [Call.emit_client_connected client] })
  else
    (true, w)

/-- A `GSource` made by `g_socket_create_source`: the watched socket and the
condition mask. -/
structure GSource where
  socket : GSocket
  condition : Nat
  deriving DecidableEq, Repr

/-- The function `gst_rtsp_server_create_source`: the returned source (`none`
is `NULL`), the caller's error location and the new state.  The assignment
`server->socket = g_object_ref (socket)` comes before the `NULL` test, and
`g_object_ref (NULL)` returns `NULL`. -/
def gst_rtsp_server_create_source (w : World) (net : Resolver)
    (error : ErrorLoc) : Except Fault (Option GSource × ErrorLoc × World) :=
  match gst_rtsp_server_create_socket w.server net error with
  | Except.error f => Except.error f
  | Except.ok r =>
    let w1 : World :=
      { w with server := { w.server with socket := r.ret },
               calls := w.calls ++ r.calls }
    match r.ret with
    | none =>
      -- no_socket
      Except.ok (none, r.error, w1)
    | some socket =>
      let source : GSource := { socket := socket, condition := 1 ||| 8 ||| 16 ||| 32 }
      let w2 : World := { w1 with calls := w1.calls ++ [Call.source_new socket] }
      let w3 := server_ref w2
      Except.ok (some source, r.error, w3)

/-- The function `gst_rtsp_server_attach`; `id` is what `g_source_attach`
returns.  The local `GError *error = NULL` is passed as `&error`. -/
def gst_rtsp_server_attach (w : World) (net : Resolver) (id : Nat) :
    Except Fault (Nat × World) :=
  match gst_rtsp_server_create_source w net (some none) with
  | Except.error f => Except.error f
  | Except.ok (none, _, w1) =>
    -- no_source
    Except.ok (0, w1)
  | Except.ok (some _, _, w1) =>
    Except.ok (id, { w1 with calls := w1.calls ++ [Call.source_attach] })

/-- The addresses the loop obtained from the enumerator, in order. -/
def pulled (calls : List Call) : List GSocketAddress :=
  calls.filterMap fun call =>
    match call with
    | Call.enumerator_next ret => ret
    | _ => none

/-- A candidate on which both `g_socket_new` and `g_socket_bind` succeed. -/
def Candidate.bindable (c : Candidate) : Bool :=
  c.new_error.isNone && c.bind_error.isNone

/-- The first bind error of an enumeration: the `g_socket_bind` error of the
first candidate whose socket was created and whose bind failed. -/
def first_bind_error : List Candidate → Option GError
  | [] => none
  | c :: rest =>
    match c.new_error, c.bind_error with
    | none, some e => some e
    | _, _ => first_bind_error rest

/-- The first socket-creation error of an enumeration. -/
def first_sock_error : List Candidate → Option GError
  | [] => none
  | c :: rest =>
    match c.new_error with
    | some e => some e
    | none => first_sock_error rest

/-! ## The public operations as a transition system -/

/-- The function `gst_rtsp_server_set_session_pool`. -/
def gst_rtsp_server_set_session_pool (server : GstRTSPServer)
    (pool : Option Nat) : GstRTSPServer :=
  { server with session_pool := pool }

/-- The function `gst_rtsp_server_set_media_mapping`. -/
def gst_rtsp_server_set_media_mapping (server : GstRTSPServer)
    (mapping : Option Nat) : GstRTSPServer :=
  { server with media_mapping := mapping }

/-- The function `gst_rtsp_server_set_auth`. -/
def gst_rtsp_server_set_auth (server : GstRTSPServer) (auth : Option Nat) :
    GstRTSPServer :=
  { server with auth := auth }

/-- One call of the public interface of the server (`client_closed` is the
`closed` signal of a client, which runs the connected `unmanage_client`
handlers). -/
inductive PublicOp where
  | set_address (address : String)
  | set_service (service : String)
  | set_backlog (backlog : Int)
  | set_session_pool (pool : Option Nat)
  | set_media_mapping (mapping : Option Nat)
  | set_auth (auth : Option Nat)
  | create_source (net : Resolver) (error : ErrorLoc)
  | attach (net : Resolver) (id : Nat)
  | io_func (socket : GSocket) (condition : Nat)
  | transfer_connection (socket : GSocket) (ip : String) (port : Int)
      (initial_buffer : String)
  | client_closed (c : ClientPtr)

/-- The state after one public operation. -/
def step (klass : GstRTSPServerClass) (impl : ClientImpl) (w : World) :
    PublicOp → Except Fault World
  | PublicOp.set_address a =>
    Except.ok { w with server := gst_rtsp_server_set_address w.server a }
  | PublicOp.set_service s =>
    Except.ok { w with server := gst_rtsp_server_set_service w.server s }
  | PublicOp.set_backlog n =>
    Except.ok { w with server := gst_rtsp_server_set_backlog w.server n }
  | PublicOp.set_session_pool p =>
    Except.ok { w with server := gst_rtsp_server_set_session_pool w.server p }
  | PublicOp.set_media_mapping m =>
    Except.ok { w with server := gst_rtsp_server_set_media_mapping w.server m }
  | PublicOp.set_auth a =>
    Except.ok { w with server := gst_rtsp_server_set_auth w.server a }
  | PublicOp.create_source net error =>
    match gst_rtsp_server_create_source w net error with
    | Except.error f => Except.error f
    | Except.ok r => Except.ok r.2.2
  | PublicOp.attach net id =>
    match gst_rtsp_server_attach w net id with
    | Except.error f => Except.error f
    | Except.ok r => Except.ok r.2
  | PublicOp.io_func socket condition =>
    Except.ok (gst_rtsp_server_io_func klass impl w socket condition).2
  | PublicOp.transfer_connection socket ip port initial_buffer =>
    Except.ok
      (gst_rtsp_server_transfer_connection klass impl w socket ip port
        initial_buffer).2
  | PublicOp.client_closed c =>
    Except.ok (emit_closed impl w c)

/-- The state after a sequence of public operations. -/
def run (klass : GstRTSPServerClass) (impl : ClientImpl) :
    World → List PublicOp → Except Fault World
  | w, [] => Except.ok w
  | w, op :: ops =>
    match step klass impl w op with
    | Except.error f => Except.error f
    | Except.ok w1 => run klass impl w1 ops

/-- A new server with no client object allocated and no call made. -/
def World.start (pool mapping : Nat) : World :=
  { server := gst_rtsp_server_init pool mapping,
    heap :=
      { obj := fun _ =>
          { ref_count := 0, server := false, session_pool := none,
            media_mapping := none, auth := none, closed_handlers := 0 },
        next := 0 },
    calls := [] }

/-! ## Concrete data used by the witnesses and counterexamples -/

/-- An error of `g_socket_new`. -/
def example_sock_error : GError := { domain := 1, code := 97 }

/-- An error of `g_socket_bind`. -/
def example_bind_error : GError := { domain := 2, code := 98 }

/-- A second error of `g_socket_bind`. -/
def example_bind_error2 : GError := { domain := 2, code := 13 }

/-- The IPv6 wildcard address on port 8554. -/
def example_addr6 : GSocketAddress :=
  { family := GSocketFamily.ipv6, host := "::", port := 8554 }

/-- The IPv4 wildcard address on port 8554. -/
def example_addr4 : GSocketAddress :=
  { family := GSocketFamily.ipv4, host := "0.0.0.0", port := 8554 }

/-- The IPv4 wildcard address on port 8555. -/
def example_addr4b : GSocketAddress :=
  { family := GSocketFamily.ipv4, host := "0.0.0.0", port := 8555 }

/-- A resolver that answers every connectable with the given candidates and
ends the enumeration without an error. -/
def example_net (addrs : List Candidate) : Resolver :=
  fun _ => { addrs := addrs, final_error := none }

/-- No IPv6 socket can be created, the IPv4 address binds and listens. -/
def example_candidates_ok : List Candidate :=
  [{ sockaddr := example_addr6, new_error := some example_sock_error,
     bind_error := none, listen_error := none, local_port := 8554 },
   { sockaddr := example_addr4, new_error := none, bind_error := none,
     listen_error := none, local_port := 8554 },
   { sockaddr := example_addr4b, new_error := none, bind_error := none,
     listen_error := none, local_port := 8555 }]

/-- No IPv6 socket can be created and both IPv4 binds fail. -/
def example_candidates_busy : List Candidate :=
  [{ sockaddr := example_addr6, new_error := some example_sock_error,
     bind_error := none, listen_error := none, local_port := 8554 },
   { sockaddr := example_addr4, new_error := none,
     bind_error := some example_bind_error, listen_error := none,
     local_port := 8554 },
   { sockaddr := example_addr4b, new_error := none,
     bind_error := some example_bind_error2, listen_error := none,
     local_port := 8555 }]

/-- The only candidate is an IPv6 address and no IPv6 socket can be created. -/
def example_candidates_nosock : List Candidate :=
  [{ sockaddr := example_addr6, new_error := some example_sock_error,
     bind_error := none, listen_error := none, local_port := 8554 }]

/-- A server as `gst_rtsp_server_init` leaves it. -/
def example_server : GstRTSPServer := gst_rtsp_server_init 1 2

/-- The clients for which a `client-connected` signal was emitted, in order. -/
def notified (calls : List Call) : List ClientPtr :=
  calls.filterMap fun call =>
    match call with
    | Call.emit_client_connected c => some c
    | _ => none

/-- How often the server released a reference on client `c`. -/
def released (c : ClientPtr) (calls : List Call) : Nat :=
  calls.count (Call.client_unref c)

/-- A client implementation whose `accept` and `createFromSocket` succeed and
whose back-reference owns a reference on the server. -/
def example_impl : ClientImpl :=
  { backref_owns := true, accept := fun _ _ => true,
    create_from_socket := fun _ _ _ _ _ => true }

/-- A client implementation whose `accept` and `createFromSocket` fail. -/
def example_impl_refusing : ClientImpl :=
  { backref_owns := true, accept := fun _ _ => false,
    create_from_socket := fun _ _ _ _ _ => false }

/-- A class whose `create_client` hook returns `NULL`. -/
def example_klass_no_client : GstRTSPServerClass :=
  { create_client := some fun _ h => (none, h),
    accept_client := some (default_accept_client example_impl) }

/-- An accepted connection socket. -/
def example_socket : GSocket :=
  g_socket_bind (g_socket_new GSocketFamily.ipv4)
    { sockaddr := example_addr4, new_error := none, bind_error := none,
      listen_error := none, local_port := 8554 }

/-- The arguments of the `gst_rtsp_client_create_from_socket` calls made, in
order. -/
def handed_over (calls : List Call) :
    List (ClientPtr × GSocket × String × Int × String) :=
  calls.filterMap fun call =>
    match call with
    | Call.client_create_from_socket c socket ip port initial_buffer =>
      some (c, socket, ip, port, initial_buffer)
    | _ => none

/-- A class whose `create_client` hook always returns client 7, the default
accept hook of `impl` next to it. -/
def example_klass_seven (impl : ClientImpl) : GstRTSPServerClass :=
  { create_client := some fun _ h => (some 7, h),
    accept_client := some (default_accept_client impl) }

/-- A resolver for a host on which port 8554 resolves to the IPv4 wildcard
address on 8554 and port 8555 to the one on 8555, both bindable. -/
def example_resolver : Resolver := fun conn =>
  match conn with
  | GSocketConnectable.network_address _ 8554 =>
    { addrs := [{ sockaddr := example_addr4, new_error := none,
                  bind_error := none, listen_error := none,
                  local_port := 8554 }],
      final_error := none }
  | GSocketConnectable.network_address _ 8555 =>
    { addrs := [{ sockaddr := example_addr4b, new_error := none,
                  bind_error := none, listen_error := none,
                  local_port := 8555 }],
      final_error := none }
  | _ => { addrs := [], final_error := some example_sock_error }

/-- The bound-socket handle of the server after a run (`none` also when the run
faulted). -/
def bound_socket (r : Except Fault World) : Option GSocket :=
  match r with
  | Except.ok w => w.server.socket
  | Except.error _ => none

/-- A state in which client 7 is already managed by the server: it was
registered once by `manage_client`. -/
def example_world_managed : World :=
  manage_client example_impl (World.start 1 2) 7

/-- The state a run ended in (the start state of a new server when it
faulted). -/
def bound_world (r : Except Fault World) : World :=
  match r with
  | Except.ok w => w
  | Except.error _ => World.start 1 2

/-- The calls that configure a socket and make it listen, in the order they
were made. -/
def configuration_calls (calls : List Call) : List Call :=
  calls.filter fun call =>
    match call with
    | Call.set_keepalive _ => true
    | Call.set_blocking _ => true
    | Call.set_listen_backlog _ => true
    | Call.socket_listen _ => true
    | _ => false

/-- The function `gst_rtsp_server_get_bound_port`: `-1` without a socket,
otherwise the `guint16` port of the local address of the socket. -/
def gst_rtsp_server_get_bound_port (server : GstRTSPServer) : Int :=
  match server.socket with
  | none => -1
  | some socket => (to_guint16 (socket.local_port : Int) : Int)

/-- An error of `g_socket_listen`. -/
def example_listen_error : GError := { domain := 3, code := 95 }

/-- The IPv6 bind fails; the IPv4 address binds but listen fails on it. -/
def example_candidates_nolisten : List Candidate :=
  [{ sockaddr := example_addr6, new_error := none,
     bind_error := some example_bind_error, listen_error := none,
     local_port := 8554 },
   { sockaddr := example_addr4, new_error := none, bind_error := none,
     listen_error := some example_listen_error, local_port := 8554 }]

/-- The locals with which the candidate loop is left on
`example_candidates_nolisten`: the socket bound to the IPv4 address, and the
bind error of the IPv6 attempt retained. -/
def example_loop_exit : LoopExit :=
  { socket := some
      (g_socket_bind (g_socket_new GSocketFamily.ipv4)
        { sockaddr := example_addr4, new_error := none, bind_error := none,
          listen_error := some example_listen_error, local_port := 8554 },
       { sockaddr := example_addr4, new_error := none, bind_error := none,
         listen_error := some example_listen_error, local_port := 8554 }),
    error := some none,
    sock_error := none,
    bind_error := some example_bind_error,
    calls := [Call.enumerator_next (some example_addr6),
              Call.socket_new GSocketFamily.ipv6 true,
              Call.socket_bind example_addr6 false, Call.socket_unref,
              Call.enumerator_next (some example_addr4),
              Call.socket_new GSocketFamily.ipv4 true,
              Call.socket_bind example_addr4 true] }

/-! ## The media factory (rtsp-media-factory.h)

Only the header of the factory is among the sources: the instance and class
structures are taken from it, the functions are modelled from the spec. -/

/-- A `GstRTSPUrl`: the parts of a request URL the factory looks at. -/
structure GstRTSPUrl where
  host : String
  port : Nat
  abspath : String
  query : Option String
  deriving DecidableEq, Repr

/-- A `GstElement` (the bin `get_element` returns) as far as stream collection
looks at it: the numbers `n` for which it has a payloader named `pay<n>`. -/
structure GstElement where
  payloaders : List Nat
  deriving DecidableEq, Repr

/-- The properties of a media that the factory stamps or configures. -/
structure MediaSettings where
  shared : Bool
  eos_shutdown : Bool
  buffer_size : Nat
  multicast_group : String
  deriving DecidableEq, Repr

/-- A `GstRTSPMedia`, the constructed resource; `id` is the identity of the
instance. -/
structure GstRTSPMedia where
  id : Nat
  element : GstElement
  streams : List Nat
  pipeline : Nat
  settings : MediaSettings
  deriving DecidableEq, Repr

/-- The instance structure `GstRTSPMediaFactory` of the header (the two locks
left out); `medias` is the table of shared media. -/
structure GstRTSPMediaFactory where
  launch : String
  shared : Bool
  eos_shutdown : Bool
  protocols : Nat
  auth : Option Nat
  buffer_size : Nat
  multicast_group : String
  medias : List (String × GstRTSPMedia)
  deriving DecidableEq, Repr

/-- The class structure `GstRTSPMediaFactoryClass` of the header: the
overridable `gen_key`, `get_element`, `configure` and `create_pipeline`.  The
`construct` slot holds its default, the build stages of `construct_build`
below.  `get_element` returns `none` when it fails; `configure` returns the
settings it leaves on the media. -/
structure GstRTSPMediaFactoryClass where
  gen_key : GstRTSPMediaFactory → GstRTSPUrl → String
  get_element : GstRTSPMediaFactory → GstRTSPUrl → Option GstElement
  configure : GstRTSPMediaFactory → GstRTSPMedia → MediaSettings
  create_pipeline : GstRTSPMediaFactory → GstRTSPMedia → Nat

/-- The error with which a construction fails. -/
inductive FactoryError where
  | ConstructError
  deriving DecidableEq, Repr

/-- The stages and cache operations the factory runs, in program order. -/
inductive FactoryCall where
  | gen_key (url : GstRTSPUrl)
  | cache_lookup (key : String)
  | media_ref (id : Nat)
  | media_unref (id : Nat)
  | get_element (url : GstRTSPUrl)
  | collect_streams (id : Nat)
  | create_pipeline (id : Nat)
  | configure (id : Nat)
  | cache_insert (key : String) (id : Nat)
  deriving DecidableEq, Repr

/-- A factory at work: the instance, the number of media objects created so
far (the identity of the next one) and the stages run so far. -/
structure FactoryWorld where
  factory : GstRTSPMediaFactory
  next_media : Nat
  calls : List FactoryCall
  deriving DecidableEq, Repr

/-- Modelled from the spec: rtsp-media-factory.c is not among the sources.
`gst_rtsp_media_factory_new`: a factory with nothing configured, not shared,
and an empty cache. -/
def gst_rtsp_media_factory_new : GstRTSPMediaFactory :=
  { launch := "", shared := false, eos_shutdown := false, protocols := 7,
    auth := none, buffer_size := 524288, multicast_group := "224.2.0.1",
    medias := [] }

/-- Modelled from the spec: rtsp-media-factory.c is not among the sources.
`gst_rtsp_media_factory_set_shared` sets the shared flag. -/
def gst_rtsp_media_factory_set_shared (factory : GstRTSPMediaFactory)
    (shared : Bool) : GstRTSPMediaFactory :=
  { factory with shared := shared }

/-- Modelled from the spec: rtsp-media-factory.c is not among the sources.
`gst_rtsp_media_factory_set_launch` stores the pipeline specification. -/
def gst_rtsp_media_factory_set_launch (factory : GstRTSPMediaFactory)
    (launch : String) : GstRTSPMediaFactory :=
  { factory with launch := launch }

/-- Modelled from the spec: rtsp-media-factory.c is not among the sources.
The default `genKey`: the canonical URL including the query string. -/
def default_gen_key (_factory : GstRTSPMediaFactory) (url : GstRTSPUrl) :
    String :=
  "rtsp://" ++ url.host ++ ":" ++ toString url.port ++ url.abspath ++
    (match url.query with
     | none => ""
     | some q => "?" ++ q)

/-- Modelled from the spec: rtsp-media-factory.c is not among the sources.
The default `getElement` builds the graph from the stored pipeline
specification and fails on a malformed one; `parse` is the pipeline parser. -/
def default_get_element (parse : String → Option GstElement)
    (factory : GstRTSPMediaFactory) (_url : GstRTSPUrl) : Option GstElement :=
  parse factory.launch

/-- Modelled from the spec: rtsp-media-factory.c is not among the sources.
The loop of `collectStreams`: the payloaders `pay<i>`, `pay<i+1>`, ... that
are present, up to the first missing number. -/
def collect_streams_from (payloaders : List Nat) : Nat → Nat → List Nat
  | _, 0 => []
  | i, fuel + 1 =>
    if i ∈ payloaders then i :: collect_streams_from payloaders (i + 1) fuel
    else []

/-- Modelled from the spec: rtsp-media-factory.c is not among the sources.
`collectStreams` inspects the graph for the sequentially numbered stream
endpoints `pay0`, `pay1`, ...; an empty result is the failure "none found". -/
def gst_rtsp_media_factory_collect_streams (element : GstElement) : List Nat :=
  collect_streams_from element.payloaders 0 element.payloaders.length

/-- Modelled from the spec: rtsp-media-factory.c is not among the sources.
The default `configure` sets the `shared` property of the media from the shared
flag of the factory. -/
def default_configure (factory : GstRTSPMediaFactory) (media : GstRTSPMedia) :
    MediaSettings :=
  { media.settings with shared := factory.shared }

/-- Modelled from the spec: rtsp-media-factory.c is not among the sources.
The default `createPipeline`: a new execution container for the media, named
after it. -/
def default_create_pipeline (_factory : GstRTSPMediaFactory)
    (media : GstRTSPMedia) : Nat :=
  media.id

/-- The default class of the factory, for a pipeline parser `parse`. -/
def gst_rtsp_media_factory_class_init (parse : String → Option GstElement) :
    GstRTSPMediaFactoryClass :=
  { gen_key := default_gen_key, get_element := default_get_element parse,
    configure := default_configure, create_pipeline := default_create_pipeline }

/-- Lookup in the cache table (`g_hash_table_lookup`). -/
def cache_lookup : List (String × GstRTSPMedia) → String → Option GstRTSPMedia
  | [], _ => none
  | (k, m) :: rest, key => if k = key then some m else cache_lookup rest key

/-- Append a stage to the record of a factory. -/
def FactoryWorld.log (w : FactoryWorld) (calls : List FactoryCall) :
    FactoryWorld :=
  { w with calls := w.calls ++ calls }

/-- Modelled from the spec: rtsp-media-factory.c is not among the sources.
Step 2 of `construct`, done under the cache lock: look the key up; an existing
media is returned with its reference count incremented. -/
def construct_lookup (w : FactoryWorld) (key : String) :
    Option GstRTSPMedia × FactoryWorld :=
  match cache_lookup w.factory.medias key with
  | some media =>
    (some media,
     w.log [FactoryCall.cache_lookup key, FactoryCall.media_ref media.id])
  | none => (none, w.log [FactoryCall.cache_lookup key])

/-- Modelled from the spec: rtsp-media-factory.c is not among the sources.
Step 3 of `construct`: `getElement`, then a new media with `collectStreams`,
`createPipeline`, the stamp of eos-shutdown, buffer size and multicast group
from the factory, and `configure`.  A failure of `getElement` or of
`collectStreams` aborts with `ConstructError` and releases what was built. -/
def construct_build (klass : GstRTSPMediaFactoryClass) (w : FactoryWorld)
    (url : GstRTSPUrl) : Except FactoryError GstRTSPMedia × FactoryWorld :=
  let w1 := w.log [FactoryCall.get_element url]
  match klass.get_element w.factory url with
  | none => (Except.error FactoryError.ConstructError, w1)
  | some element =>
    let id := w.next_media
    let w2 : FactoryWorld :=
      { w1 with next_media := id + 1,
                calls := w1.calls ++ [FactoryCall.collect_streams id] }
    match gst_rtsp_media_factory_collect_streams element with
    | [] =>
      (Except.error FactoryError.ConstructError,
       w2.log [FactoryCall.media_unref id])
    | s :: ss =>
      let media1 : GstRTSPMedia :=
        { id := id, element := element, streams := s :: ss, pipeline := 0,
          settings :=
            { shared := false, eos_shutdown := false, buffer_size := 0,
              multicast_group := "" } }
      let media2 : GstRTSPMedia :=
        { media1 with pipeline := klass.create_pipeline w.factory media1 }
      let media3 : GstRTSPMedia :=
        { media2 with
          settings :=
            { media2.settings with
              eos_shutdown := w.factory.eos_shutdown,
              buffer_size := w.factory.buffer_size,
              multicast_group := w.factory.multicast_group } }
      let media4 : GstRTSPMedia :=
        { media3 with settings := klass.configure w.factory media3 }
      (Except.ok media4,
       w2.log [FactoryCall.create_pipeline id, FactoryCall.configure id])

/-- Modelled from the spec: rtsp-media-factory.c is not among the sources.
Step 4 of `construct`, done under the cache lock: insert the media under the
key; when an entry for the key is already there, the media just built is
discarded and the entry that is there, the winner, is returned. -/
def construct_insert (w : FactoryWorld) (key : String) (media : GstRTSPMedia) :
    GstRTSPMedia × FactoryWorld :=
  match cache_lookup w.factory.medias key with
  | some winner =>
    (winner,
     w.log [FactoryCall.media_unref media.id, FactoryCall.media_ref winner.id])
  | none =>
    (media,
     { w with
       factory := { w.factory with medias := (key, media) :: w.factory.medias },
       calls := w.calls ++ [FactoryCall.cache_insert key media.id] })

/-- Modelled from the spec: rtsp-media-factory.c is not among the sources.
`gst_rtsp_media_factory_construct`: (1) `key = genKey (url)`; (2) when shared,
look the key up and return a cached media; (3) otherwise run the build stages;
(4) when shared, insert the result, or return the winner; (5) return the
media. -/
def gst_rtsp_media_factory_construct (klass : GstRTSPMediaFactoryClass)
    (w : FactoryWorld) (url : GstRTSPUrl) :
    Except FactoryError GstRTSPMedia × FactoryWorld :=
  let key := klass.gen_key w.factory url
  let w0 := w.log [FactoryCall.gen_key url]
  let found : Option GstRTSPMedia × FactoryWorld :=
    if w0.factory.shared then construct_lookup w0 key else (none, w0)
  match found.1 with
  | some media => (Except.ok media, found.2)
  | none =>
    match construct_build klass found.2 url with
    | (Except.error e, w2) => (Except.error e, w2)
    | (Except.ok media, w2) =>
      if w2.factory.shared then
        let r := construct_insert w2 key media
        (Except.ok r.1, r.2)
      else (Except.ok media, w2)

/-- How often `getElement` was run. -/
def get_element_count (calls : List FactoryCall) : Nat :=
  (calls.filter fun call =>
    match call with
    | FactoryCall.get_element _ => true
    | _ => false).length

/-- The cache operations among the stages run. -/
def cache_calls (calls : List FactoryCall) : List FactoryCall :=
  calls.filter fun call =>
    match call with
    | FactoryCall.cache_lookup _ => true
    | FactoryCall.cache_insert _ _ => true
    | _ => false

/-- A pipeline parser: "bad" is malformed, "nopay" gives a bin whose only
payloader is `pay1`, every other specification a bin with `pay0` and `pay1`. -/
def example_parse (launch : String) : Option GstElement :=
  if launch = "bad" then none
  else if launch = "nopay" then some { payloaders := [1] }
  else some { payloaders := [0, 1] }

/-- The default factory class over `example_parse`. -/
def example_factory_klass : GstRTSPMediaFactoryClass :=
  gst_rtsp_media_factory_class_init example_parse

/-- The URL rtsp://h/test?a=1. -/
def example_url1 : GstRTSPUrl :=
  { host := "h", port := 554, abspath := "/test", query := some "a=1" }

/-- The URL rtsp://h/test?a=2. -/
def example_url2 : GstRTSPUrl :=
  { host := "h", port := 554, abspath := "/test", query := some "a=2" }

/-- A new factory with a well-formed pipeline specification, not shared. -/
def example_factory_world : FactoryWorld :=
  { factory := gst_rtsp_media_factory_set_launch gst_rtsp_media_factory_new
      "videotestsrc ! rtpvrawpay name=pay0",
    next_media := 0, calls := [] }

/-- The same factory with sharing switched on. -/
def example_factory_world_shared : FactoryWorld :=
  { factory := gst_rtsp_media_factory_set_shared example_factory_world.factory
      true,
    next_media := 0, calls := [] }

/-- A shared factory whose pipeline specification has no `pay0`. -/
def example_factory_world_nopay : FactoryWorld :=
  { factory := gst_rtsp_media_factory_set_launch
      example_factory_world_shared.factory "nopay",
    next_media := 0, calls := [] }

/-- The media a result holds (`none` for a failure). -/
def result_media (r : Except FactoryError GstRTSPMedia) : Option GstRTSPMedia :=
  match r with
  | Except.ok media => some media
  | Except.error _ => none

/-- The cache insertions among the stages run. -/
def insert_calls (calls : List FactoryCall) : List FactoryCall :=
  calls.filter fun call =>
    match call with
    | FactoryCall.cache_insert _ _ => true
    | _ => false

/-! ## Two callers of `construct` at once -/

/-- Where one caller of `construct` stands: before step 1; after the key was
derived and no cached media was returned; after the build stages; returned. -/
inductive ConstructPhase where
  | start
  | missed (key : String)
  | built (key : String) (media : GstRTSPMedia)
  | done (result : Except FactoryError GstRTSPMedia)
  deriving Repr

/-- Modelled from the spec: rtsp-media-factory.c is not among the sources.
One step of a caller of `construct`.  The cache lock is held only around the
table operation, so the steps that other callers can come between are: key
derivation with the lookup (steps 1 and 2), the build stages (step 3), and the
insertion (steps 4 and 5). -/
def construct_step (klass : GstRTSPMediaFactoryClass) (url : GstRTSPUrl)
    (w : FactoryWorld) : ConstructPhase → ConstructPhase × FactoryWorld
  | ConstructPhase.start =>
    let key := klass.gen_key w.factory url
    let w0 := w.log [FactoryCall.gen_key url]
    let found : Option GstRTSPMedia × FactoryWorld :=
      if w0.factory.shared then construct_lookup w0 key else (none, w0)
    match found.1 with
    | some media => (ConstructPhase.done (Except.ok media), found.2)
    | none => (ConstructPhase.missed key, found.2)
  | ConstructPhase.missed key =>
    match construct_build klass w url with
    | (Except.error e, w2) => (ConstructPhase.done (Except.error e), w2)
    | (Except.ok media, w2) => (ConstructPhase.built key media, w2)
  | ConstructPhase.built key media =>
    if w.factory.shared then
      let r := construct_insert w key media
      (ConstructPhase.done (Except.ok r.1), r.2)
    else (ConstructPhase.done (Except.ok media), w)
  | ConstructPhase.done result => (ConstructPhase.done result, w)

/-- The steps a caller still has to make at most. -/
def ConstructPhase.remaining : ConstructPhase → Nat
  | ConstructPhase.start => 3
  | ConstructPhase.missed _ => 2
  | ConstructPhase.built _ _ => 1
  | ConstructPhase.done _ => 0

/-- Two callers of `construct` on one factory. -/
structure Race where
  world : FactoryWorld
  first : ConstructPhase
  second : ConstructPhase
  deriving Repr

/-- The caller chosen by `who` (`true`: the first) makes its next step. -/
def race_step (klass : GstRTSPMediaFactoryClass) (url : GstRTSPUrl) (r : Race)
    (who : Bool) : Race :=
  if who then
    { world := (construct_step klass url r.world r.first).2,
      first := (construct_step klass url r.world r.first).1,
      second := r.second }
  else
    { world := (construct_step klass url r.world r.second).2,
      first := r.first,
      second := (construct_step klass url r.world r.second).1 }

/-- The state after the callers stepped in the order of the schedule. -/
def race_run (klass : GstRTSPMediaFactoryClass) (url : GstRTSPUrl) :
    Race → List Bool → Race
  | r, [] => r
  | r, who :: rest => race_run klass url (race_step klass url r who) rest

/-- The cache holds at most one entry per key. -/
def keys_unique (medias : List (String × GstRTSPMedia)) : Prop :=
  (medias.map Prod.fst).Nodup

/-- What is known of a caller working on `key`: its key is `key`, and a media
it has returned is the one cached under `key`. -/
def phase_ok (key : String) (medias : List (String × GstRTSPMedia)) :
    ConstructPhase → Prop
  | ConstructPhase.start => True
  | ConstructPhase.missed k => k = key
  | ConstructPhase.built k _ => k = key
  | ConstructPhase.done (Except.ok media) => cache_lookup medias key = some media
  | ConstructPhase.done (Except.error _) => True

/-- The invariant of two callers racing for `key` on a shared factory. -/
def race_inv (key : String) (r : Race) : Prop :=
  r.world.factory.shared = true ∧ keys_unique r.world.factory.medias ∧
  phase_ok key r.world.factory.medias r.first ∧
  phase_ok key r.world.factory.medias r.second

/-- A state whose active-client list is 3, 7, 5, 7. -/
def example_world_list : World :=
  { World.start 1 2 with
    server := { gst_rtsp_server_init 1 2 with clients := [3, 7, 5, 7] } }

/-- An error of the resolver. -/
def example_resolver_error : GError := { domain := 4, code := 2 }

/-- A server configured with a service name instead of a port. -/
def example_server_named : GstRTSPServer :=
  gst_rtsp_server_set_service example_server "rtsp"

/-- A resolver whose enumeration yields one address, on which bind fails, and
then ends with an error of its own. -/
def example_net_broken : Resolver := fun _ =>
  { addrs := [{ sockaddr := example_addr4, new_error := none,
                bind_error := some example_bind_error, listen_error := none,
                local_port := 8554 }],
    final_error := some example_resolver_error }

/-- A state in which client 7 was managed once and then closed: it has left
the list, and the `closed` handler connected by `manage_client` is still
connected to it. -/
def example_world_closed : World :=
  emit_closed example_impl example_world_managed 7

/-! ## Proofs: the candidate loop -/

theorem pulled_append (a b : List Call) : pulled (a ++ b) = pulled a ++ pulled b := by
  simp [pulled, List.filterMap_append]

theorem create_socket_loop_split (fe : Option GError) (c : Candidate)
    (post : List Candidate) (hc : c.bindable = true) :
    ∀ (pre : List Candidate) (error : ErrorLoc) (se be : Option GError)
      (calls : List Call),
      (∀ x ∈ pre, x.bindable = false) →
      ∃ se1 be1 calls1,
        create_socket_loop fe (pre ++ c :: post) error se be calls =
          Except.ok
            { socket := some (g_socket_bind (g_socket_new c.sockaddr.family) c, c),
              error := error, sock_error := se1, bind_error := be1,
              calls := calls1 } ∧
        pulled calls1 = pulled calls ++ (pre ++ [c]).map Candidate.sockaddr := by
  have hcn : c.new_error = none := by
    cases h : c.new_error <;> simp [Candidate.bindable, h] at hc ⊢
  have hcb : c.bind_error = none := by
    cases h : c.bind_error <;> simp [Candidate.bindable, h] at hc ⊢
  intro pre
  induction pre with
  | nil =>
    intro error se be calls _
    refine ⟨se, be,
      calls ++ [Call.enumerator_next (some c.sockaddr)] ++
        [Call.socket_new c.sockaddr.family true] ++
        [Call.socket_bind c.sockaddr true], ?_, ?_⟩
    · simp only [List.nil_append, create_socket_loop, hcn, hcb]
    · simp [pulled_append, pulled]
  | cons d rest ih =>
    intro error se be calls hpre
    have hd : d.bindable = false := hpre d (List.mem_cons_self d rest)
    have hrest : ∀ x ∈ rest, x.bindable = false :=
      fun x hx => hpre x (List.mem_cons_of_mem d hx)
    cases hn : d.new_error with
    | some e =>
      obtain ⟨se1, be1, calls1, h1, h2⟩ :=
        ih error (keep_first se (some e)) be
          (calls ++ [Call.enumerator_next (some d.sockaddr)] ++
            [Call.socket_new d.sockaddr.family false]) hrest
      refine ⟨se1, be1, calls1, ?_, ?_⟩
      · simp only [List.cons_append, create_socket_loop, hn]; exact h1
      · rw [h2]; simp [pulled_append, pulled]
    | none =>
      cases hbe : d.bind_error with
      | none => simp [Candidate.bindable, hn, hbe] at hd
      | some e =>
        obtain ⟨se1, be1, calls1, h1, h2⟩ :=
          ih error se (keep_first be (some e))
            (calls ++ [Call.enumerator_next (some d.sockaddr)] ++
              [Call.socket_new d.sockaddr.family true] ++
              [Call.socket_bind d.sockaddr false, Call.socket_unref]) hrest
        refine ⟨se1, be1, calls1, ?_, ?_⟩
        · simp only [List.cons_append, create_socket_loop, hn, hbe]; exact h1
        · rw [h2]; simp [pulled_append, pulled]

theorem exists_first_bindable (l : List Candidate)
    (h : ∃ x ∈ l, x.bindable = true) :
    ∃ pre c post, l = pre ++ c :: post ∧ (∀ x ∈ pre, x.bindable = false) ∧
      c.bindable = true := by
  have hs : (l.find? Candidate.bindable).isSome := by
    rw [List.find?_isSome]; exact h
  obtain ⟨c, hc⟩ := Option.isSome_iff_exists.mp hs
  obtain ⟨hcb, pre, post, hsplit, hpre⟩ := List.find?_eq_some.mp hc
  refine ⟨pre, c, post, hsplit, ?_, hcb⟩
  intro x hx
  simpa using hpre x hx

/-! ## C1 -/

/-- C1: whenever some resolved candidate can have a socket created and bound,
the candidate list splits at the first such candidate `c`; if listen succeeds
on it, `gst_rtsp_server_create_socket` returns the listening socket bound to
the address of `c`, leaves the caller's error location untouched, and the
addresses taken from the enumerator are exactly those up to and including `c`,
so no later candidate is attempted. -/
theorem C1_first_bindable_candidate_is_bound (server : GstRTSPServer)
    (net : Resolver) (error : ErrorLoc)
    (h : ∃ x ∈ (net (create_socket_connectable server)).addrs,
      x.bindable = true) :
    ∃ pre c post,
      (net (create_socket_connectable server)).addrs = pre ++ c :: post ∧
      (∀ x ∈ pre, x.bindable = false) ∧ c.bindable = true ∧
      (c.listen_error = none →
        ∃ calls,
          gst_rtsp_server_create_socket server net error =
            Except.ok
              { ret := some
                  { family := c.sockaddr.family, bound_to := some c.sockaddr,
                    local_port := c.local_port, keepalive := true,
                    blocking := false, listen_backlog := server.backlog,
                    listening := true },
                error := error, calls := calls } ∧
          pulled calls = (pre ++ [c]).map Candidate.sockaddr) := by
  obtain ⟨pre, c, post, hsplit, hpre, hc⟩ := exists_first_bindable _ h
  refine ⟨pre, c, post, hsplit, hpre, hc, ?_⟩
  intro hlisten
  obtain ⟨se1, be1, calls1, h1, h2⟩ :=
    create_socket_loop_split (net (create_socket_connectable server)).final_error
      c post hc pre error none none [] hpre
  refine ⟨calls1 ++ [Call.set_keepalive true, Call.set_blocking false,
      Call.set_listen_backlog server.backlog] ++ [Call.socket_listen true], ?_, ?_⟩
  · simp only [gst_rtsp_server_create_socket, hsplit, h1, hlisten]
    rfl
  · rw [pulled_append, pulled_append, h2]
    simp [pulled]

/-- Witness of C1: the IPv6 candidate gets no socket, the IPv4 one binds. -/
theorem C1_witness :
    (∃ x ∈ (example_net example_candidates_ok
        (create_socket_connectable example_server)).addrs, x.bindable = true) ∧
    ∃ pre c post,
      (example_net example_candidates_ok
        (create_socket_connectable example_server)).addrs = pre ++ c :: post ∧
      (∀ x ∈ pre, x.bindable = false) ∧ c.bindable = true ∧
      (c.listen_error = none →
        ∃ calls,
          gst_rtsp_server_create_socket example_server
              (example_net example_candidates_ok) (some none) =
            Except.ok
              { ret := some
                  { family := c.sockaddr.family, bound_to := some c.sockaddr,
                    local_port := c.local_port, keepalive := true,
                    blocking := false, listen_backlog := example_server.backlog,
                    listening := true },
                error := some none, calls := calls } ∧
          pulled calls = (pre ++ [c]).map Candidate.sockaddr) :=
  ⟨⟨_, List.mem_cons_of_mem _ (List.mem_cons_self _ _), rfl⟩,
   C1_first_bindable_candidate_is_bound example_server
     (example_net example_candidates_ok) (some none)
     ⟨_, List.mem_cons_of_mem _ (List.mem_cons_self _ _), rfl⟩⟩

/-! ## C2 and C3: the errors reported when no candidate binds -/

theorem keep_first_keep_first (p : Option GError) (e : GError)
    (q : Option GError) :
    keep_first (keep_first p (some e)) q = keep_first p (some e) := by
  cases p <;> rfl

theorem create_socket_loop_none_bindable (fe : Option GError)
    (el : Option GError) :
    ∀ (cands : List Candidate) (se be : Option GError) (calls : List Call),
      (∀ x ∈ cands, x.bindable = false) →
      ∃ calls1,
        create_socket_loop fe cands (some el) se be calls =
          Except.ok
            { socket := none, error := g_set_result (some el) fe,
              sock_error := keep_first se (first_sock_error cands),
              bind_error := keep_first be (first_bind_error cands),
              calls := calls1 } := by
  intro cands
  induction cands with
  | nil =>
    intro se be calls _
    refine ⟨calls ++ [Call.enumerator_next none], ?_⟩
    cases se <;> cases be <;> rfl
  | cons d rest ih =>
    intro se be calls hall
    have hd : d.bindable = false := hall d (List.mem_cons_self d rest)
    have hrest : ∀ x ∈ rest, x.bindable = false :=
      fun x hx => hall x (List.mem_cons_of_mem d hx)
    cases hn : d.new_error with
    | some e =>
      obtain ⟨calls1, h1⟩ :=
        ih (keep_first se (some e)) be
          (calls ++ [Call.enumerator_next (some d.sockaddr)] ++
            [Call.socket_new d.sockaddr.family false]) hrest
      refine ⟨calls1, ?_⟩
      simp only [create_socket_loop, hn, h1, first_sock_error, first_bind_error,
        keep_first_keep_first]
    | none =>
      cases hbe : d.bind_error with
      | none => simp [Candidate.bindable, hn, hbe] at hd
      | some e =>
        obtain ⟨calls1, h1⟩ :=
          ih se (keep_first be (some e))
            (calls ++ [Call.enumerator_next (some d.sockaddr)] ++
              [Call.socket_new d.sockaddr.family true] ++
              [Call.socket_bind d.sockaddr false, Call.socket_unref]) hrest
        refine ⟨calls1, ?_⟩
        simp only [create_socket_loop, hn, hbe, h1, first_sock_error,
          first_bind_error, keep_first_keep_first]

theorem exists_first_bind_attempt :
    ∀ (l : List Candidate), (∀ x ∈ l, x.bindable = false) →
      (∃ x ∈ l, x.new_error = none) →
      ∃ pre c post e, l = pre ++ c :: post ∧
        (∀ x ∈ pre, x.new_error ≠ none) ∧ c.new_error = none ∧
        c.bind_error = some e ∧ first_bind_error l = some e := by
  intro l
  induction l with
  | nil => intro _ h; obtain ⟨x, hx, _⟩ := h; simp at hx
  | cons d rest ih =>
    intro hall hex
    have hd : d.bindable = false := hall d (List.mem_cons_self d rest)
    cases hn : d.new_error with
    | none =>
      cases hbe : d.bind_error with
      | none => simp [Candidate.bindable, hn, hbe] at hd
      | some e =>
        refine ⟨[], d, rest, e, rfl, ?_, hn, hbe, ?_⟩
        · intro x hx; simp at hx
        · simp only [first_bind_error, hn, hbe]
    | some e0 =>
      have hex1 : ∃ x ∈ rest, x.new_error = none := by
        obtain ⟨x, hx, hxn⟩ := hex
        rcases List.mem_cons.mp hx with rfl | hx1
        · rw [hn] at hxn; cases hxn
        · exact ⟨x, hx1, hxn⟩
      obtain ⟨pre, c, post, e, hsplit, hpre, hcn, hcb, hfirst⟩ :=
        ih (fun x hx => hall x (List.mem_cons_of_mem d hx)) hex1
      refine ⟨d :: pre, c, post, e, ?_, ?_, hcn, hcb, ?_⟩
      · rw [hsplit]; rfl
      · intro x hx
        rcases List.mem_cons.mp hx with rfl | hx1
        · rw [hn]; simp
        · exact hpre x hx1
      · simp only [first_bind_error, hn, hfirst]

/-- C2 (as amended): when no candidate is bindable and at least one socket
was created (so a bind was attempted), the candidate list splits at the first
candidate `c` on which bind is attempted, and for a caller that passed an
empty error location `gst_rtsp_server_create_socket` returns `NULL`; the error
it reports is the bind error of `c`, the first bind error of the loop, when
the address enumeration ended without an error of its own, and the error of
the enumerator when it ended with one. -/
theorem C2_error_reported_when_no_bind_succeeds (server : GstRTSPServer)
    (net : Resolver)
    (hnone : ∀ x ∈ (net (create_socket_connectable server)).addrs,
      x.bindable = false)
    (hattempt : ∃ x ∈ (net (create_socket_connectable server)).addrs,
      x.new_error = none) :
    ∃ pre c post e r,
      (net (create_socket_connectable server)).addrs = pre ++ c :: post ∧
      (∀ x ∈ pre, x.new_error ≠ none) ∧ c.new_error = none ∧
      c.bind_error = some e ∧
      gst_rtsp_server_create_socket server net (some none) = Except.ok r ∧
      r.ret = none ∧
      ((net (create_socket_connectable server)).final_error = none →
        r.error = some (some e)) ∧
      (∀ er, (net (create_socket_connectable server)).final_error = some er →
        r.error = some (some er)) := by
  obtain ⟨pre, c, post, e, hsplit, hpre, hcn, hcb, hfirst⟩ :=
    exists_first_bind_attempt _ hnone hattempt
  obtain ⟨calls1, h1⟩ :=
    create_socket_loop_none_bindable
      (net (create_socket_connectable server)).final_error none
      (net (create_socket_connectable server)).addrs none none [] hnone
  rw [hfirst] at h1
  have hr : gst_rtsp_server_create_socket server net (some none) =
      Except.ok
        (close_error none
          (g_set_result (some none)
            (net (create_socket_connectable server)).final_error)
          (keep_first none
            (first_sock_error (net (create_socket_connectable server)).addrs))
          (keep_first none (some e)) calls1) := by
    unfold gst_rtsp_server_create_socket
    simp only [h1]
  refine ⟨pre, c, post, e, _, hsplit, hpre, hcn, hcb, hr, rfl, ?_, ?_⟩
  · intro hfe
    rw [hfe]
    cases first_sock_error (net (create_socket_connectable server)).addrs <;>
      rfl
  · intro er hfe
    rw [hfe]
    cases first_sock_error (net (create_socket_connectable server)).addrs <;>
      rfl

/-- Counterexample to C2: the service is a name, its only address cannot be
bound, and the enumeration then ends with an error of the resolver; the caller
gets the error of the resolver, not the bind error. -/
theorem C2_counterexample :
    create_socket_connectable example_server_named =
      GSocketConnectable.network_service "rtsp" "tcp" "0.0.0.0" ∧
    gst_rtsp_server_create_socket example_server_named example_net_broken
        (some none) =
      Except.ok
        { ret := none, error := some (some example_resolver_error),
          calls := [Call.enumerator_next (some example_addr4),
                    Call.socket_new GSocketFamily.ipv4 true,
                    Call.socket_bind example_addr4 false, Call.socket_unref,
                    Call.enumerator_next none] } ∧
    first_bind_error
      (example_net_broken
        (create_socket_connectable example_server_named)).addrs =
      some example_bind_error ∧
    example_resolver_error ≠ example_bind_error :=
  ⟨by decide, rfl, rfl, by decide⟩

/-- Witness of C2: one socket cannot be created and two binds fail; the
enumeration ends cleanly, so the error reported is the one of the first bind
that was attempted. -/
theorem C2_witness :
    ∃ pre c post e r,
      (example_net example_candidates_busy
        (create_socket_connectable example_server)).addrs = pre ++ c :: post ∧
      (∀ x ∈ pre, x.new_error ≠ none) ∧ c.new_error = none ∧
      c.bind_error = some e ∧
      gst_rtsp_server_create_socket example_server
          (example_net example_candidates_busy) (some none) = Except.ok r ∧
      r.ret = none ∧
      ((example_net example_candidates_busy
          (create_socket_connectable example_server)).final_error = none →
        r.error = some (some e)) ∧
      (∀ er, (example_net example_candidates_busy
          (create_socket_connectable example_server)).final_error = some er →
        r.error = some (some er)) :=
  C2_error_reported_when_no_bind_succeeds example_server
    (example_net example_candidates_busy) (by decide)
    ⟨_, List.mem_cons_of_mem _ (List.mem_cons_self _ _), rfl⟩

theorem first_bind_error_eq_none :
    ∀ (l : List Candidate), (∀ x ∈ l, x.new_error ≠ none) →
      first_bind_error l = none := by
  intro l
  induction l with
  | nil => intro _; rfl
  | cons d rest ih =>
    intro hall
    have hd : d.new_error ≠ none := hall d (List.mem_cons_self d rest)
    cases hn : d.new_error with
    | none => exact absurd hn hd
    | some e =>
      simp only [first_bind_error, hn]
      exact ih fun x hx => hall x (List.mem_cons_of_mem d hx)

/-- The retained socket-creation error never reaches the caller: when every
candidate fails at `g_socket_new`, the enumeration ends cleanly and the caller
passed an empty error location, the function returns `NULL` and the location is
still empty. -/
theorem sock_error_is_dropped (server : GstRTSPServer) (net : Resolver)
    (hclean : (net (create_socket_connectable server)).final_error = none)
    (hall : ∀ x ∈ (net (create_socket_connectable server)).addrs,
      x.new_error ≠ none) :
    ∃ calls,
      gst_rtsp_server_create_socket server net (some none) =
        Except.ok { ret := none, error := some none, calls := calls } := by
  have hnone : ∀ x ∈ (net (create_socket_connectable server)).addrs,
      x.bindable = false := by
    intro x hx
    have := hall x hx
    cases hn : x.new_error with
    | none => exact absurd hn this
    | some e => simp [Candidate.bindable, hn]
  obtain ⟨calls1, h1⟩ :=
    create_socket_loop_none_bindable
      (net (create_socket_connectable server)).final_error none
      (net (create_socket_connectable server)).addrs none none [] hnone
  refine ⟨calls1, ?_⟩
  rw [hclean, first_bind_error_eq_none _ hall] at h1
  unfold gst_rtsp_server_create_socket
  simp only [hclean, h1]
  cases first_sock_error (net (create_socket_connectable server)).addrs <;> rfl

/-- C3 (the code at the failing input): the only candidate fails at
`g_socket_new` with `example_sock_error`, no bind is attempted, and
`gst_rtsp_server_create_socket` returns `NULL` leaving the caller's error
location empty: the retained socket-creation error is freed, not reported. -/
theorem C3_sock_error_not_reported :
    gst_rtsp_server_create_socket example_server
        (example_net example_candidates_nosock) (some none) =
      Except.ok
        { ret := none, error := some none,
          calls := [Call.enumerator_next (some example_addr6),
                    Call.socket_new GSocketFamily.ipv6 false,
                    Call.enumerator_next none] } ∧
    first_sock_error example_candidates_nosock = some example_sock_error := by
  constructor <;> rfl

/-! ## C4: numeric port or named service -/

/-- C4 (the code at the failing input): for the service string "0" the
`guint16` port is 0, the test `port != 0` fails, and the connectable is the
named service "0" over "tcp", not the address with port 0; the default "8554"
takes the numeric path. -/
theorem C4_service_zero_is_named_service :
    to_guint16 (atoi "0") = 0 ∧
    create_socket_connectable (gst_rtsp_server_set_service example_server "0") =
      GSocketConnectable.network_service "0" "tcp" "0.0.0.0" ∧
    create_socket_connectable example_server =
      GSocketConnectable.network_address "0.0.0.0" 8554 := by
  decide

/-! ## C5, C8, C9, C10: the two connection entry points -/

theorem call_create_client_server (klass : GstRTSPServerClass) (w : World) :
    (call_create_client klass w).2.server = w.server := by
  unfold call_create_client; cases klass.create_client <;> rfl

theorem call_create_client_calls (klass : GstRTSPServerClass) (w : World) :
    (call_create_client klass w).2.calls = w.calls := by
  unfold call_create_client; cases klass.create_client <;> rfl

/-- C5 (as amended): on every per-connection failure of a readable callback,
no client from the hook or a failing accept hook, `gst_rtsp_server_io_func`
returns `FALSE`, which is `G_SOURCE_REMOVE`. -/
theorem C5_failure_returns_source_remove (klass : GstRTSPServerClass)
    (impl : ClientImpl) (w : World) (socket : GSocket) (condition : Nat)
    (hin : condition &&& G_IO_IN ≠ 0)
    (hfail : (call_create_client klass w).1 = none ∨
      ∃ c hook, (call_create_client klass w).1 = some c ∧
        klass.accept_client = some hook ∧
        hook (call_create_client klass w).2.server
          (call_create_client klass w).2.heap c socket = false) :
    (gst_rtsp_server_io_func klass impl w socket condition).1 =
      G_SOURCE_REMOVE := by
  unfold gst_rtsp_server_io_func
  rw [if_pos hin]
  rcases hcc : call_create_client klass w with ⟨oc, w1⟩
  rw [hcc] at hfail
  rcases hfail with h | ⟨c, hook, h1, h2, h3⟩
  · simp only at h
    subst h
    rfl
  · simp only at h1 h3
    subst h1
    simp only [h2, h3]
    rfl

/-- Counterexample to C5: the create-client hook returns no client on a
readable socket and the callback returns `G_SOURCE_REMOVE`, not
`G_SOURCE_CONTINUE`. -/
theorem C5_counterexample :
    (gst_rtsp_server_io_func example_klass_no_client example_impl
        (World.start 1 2) example_socket G_IO_IN).1 = G_SOURCE_REMOVE ∧
    (gst_rtsp_server_io_func example_klass_no_client example_impl
        (World.start 1 2) example_socket G_IO_IN).1 ≠ G_SOURCE_CONTINUE := by
  decide

/-- Witness of C5: the hook that returns no client. -/
theorem C5_witness :
    G_IO_IN &&& G_IO_IN ≠ 0 ∧
    (gst_rtsp_server_io_func example_klass_no_client example_impl
        (World.start 1 2) example_socket G_IO_IN).1 = G_SOURCE_REMOVE :=
  ⟨by decide,
   C5_failure_returns_source_remove example_klass_no_client example_impl
     (World.start 1 2) example_socket G_IO_IN (by decide) (Or.inl rfl)⟩

theorem manage_client_clients (impl : ClientImpl) (w : World) (c : ClientPtr) :
    (manage_client impl w c).server.clients = c :: w.server.clients := rfl

theorem manage_client_socket (impl : ClientImpl) (w : World) (c : ClientPtr) :
    (manage_client impl w c).server.socket = w.server.socket := rfl

theorem manage_client_calls (impl : ClientImpl) (w : World) (c : ClientPtr) :
    (manage_client impl w c).calls =
      w.calls ++ [Call.client_set_server c true] ++
        [Call.signal_connect_closed c, Call.list_prepend c] := rfl

/-- C8: on a readable condition, when the create-client hook returns client `c`
and the accept hook (if installed) succeeds, `gst_rtsp_server_io_func` returns
`TRUE`, the active-client list is the old one with `c` added, and the calls
made are, in order: set the back-reference of `c`, connect its `closed`
signal, prepend `c` to the list, and then one `client-connected` emission
carrying `c`. -/
theorem C8_success_registers_then_notifies (klass : GstRTSPServerClass)
    (impl : ClientImpl) (w : World) (socket : GSocket) (condition : Nat)
    (c : ClientPtr)
    (hin : condition &&& G_IO_IN ≠ 0)
    (hc : (call_create_client klass w).1 = some c)
    (hacc : ∀ hook, klass.accept_client = some hook →
      hook (call_create_client klass w).2.server
        (call_create_client klass w).2.heap c socket = true) :
    (gst_rtsp_server_io_func klass impl w socket condition).1 = true ∧
    (gst_rtsp_server_io_func klass impl w socket condition).2.server.clients =
      c :: w.server.clients ∧
    (gst_rtsp_server_io_func klass impl w socket condition).2.calls =
      w.calls ++ [Call.client_set_server c true, Call.signal_connect_closed c,
        Call.list_prepend c, Call.emit_client_connected c] ∧
    notified (gst_rtsp_server_io_func klass impl w socket condition).2.calls =
      notified w.calls ++ [c] := by
  have hs := call_create_client_server klass w
  have hcalls := call_create_client_calls klass w
  unfold gst_rtsp_server_io_func
  rw [if_pos hin]
  rcases hcc : call_create_client klass w with ⟨oc, w1⟩
  rw [hcc] at hc hacc hs hcalls
  simp only at hc hacc hs hcalls
  subst hc
  have hres : (match klass.accept_client with
      | none => true
      | some hook => hook w1.server w1.heap c socket) = true := by
    cases hk : klass.accept_client with
    | none => rfl
    | some hook => exact hacc hook hk
  simp only [hres]
  refine ⟨rfl, ?_, ?_, ?_⟩
  · show (manage_client impl w1 c).server.clients = c :: w.server.clients
    rw [manage_client_clients, hs]
  · show (manage_client impl w1 c).calls ++ [Call.emit_client_connected c] = _
    rw [manage_client_calls, hcalls]
    simp
  · show notified ((manage_client impl w1 c).calls ++
      [Call.emit_client_connected c]) = _
    rw [manage_client_calls, hcalls]
    simp [notified]

/-- Witness of C8: the hook returns client 7 and accept succeeds. -/
theorem C8_witness :
    G_IO_IN &&& G_IO_IN ≠ 0 ∧
    (gst_rtsp_server_io_func (example_klass_seven example_impl) example_impl
        (World.start 1 2) example_socket G_IO_IN).2.server.clients = [7] ∧
    (gst_rtsp_server_io_func (example_klass_seven example_impl) example_impl
        (World.start 1 2) example_socket G_IO_IN).2.calls =
      [Call.client_set_server 7 true, Call.signal_connect_closed 7,
        Call.list_prepend 7, Call.emit_client_connected 7] :=
  have h := C8_success_registers_then_notifies (example_klass_seven example_impl)
    example_impl (World.start 1 2) example_socket G_IO_IN 7 (by decide) rfl
    (by intro hook hk; cases hk; rfl)
  ⟨by decide, h.2.1, h.2.2.1⟩

theorem notified_append (a b : List Call) :
    notified (a ++ b) = notified a ++ notified b := by
  simp [notified, List.filterMap_append]

theorem released_append (c : ClientPtr) (a b : List Call) :
    released c (a ++ b) = released c a + released c b := by
  simp [released, List.count_append]

theorem client_unref_ref_count (w : World) (c : ClientPtr) :
    ((client_unref w c).heap.obj c).ref_count = (w.heap.obj c).ref_count - 1 := by
  simp [client_unref, ClientHeap.set]

/-- C9: each failing path of the two connection entry points returns `FALSE`,
leaves the active-client list as it was and emits no `client-connected`;
when the hook gave no client nothing is called at all, and when the handoff
(accept hook, or `gst_rtsp_client_create_from_socket`) fails the only call
made after the handoff is one release of the new client, whose reference
count drops by one. -/
theorem C9_failure_leaves_registry_unchanged (klass : GstRTSPServerClass)
    (impl : ClientImpl) (w : World) (socket : GSocket) (condition : Nat)
    (ip : String) (port : Int) (initial_buffer : String) :
    (condition &&& G_IO_IN ≠ 0 → (call_create_client klass w).1 = none →
      (gst_rtsp_server_io_func klass impl w socket condition).1 = false ∧
      (gst_rtsp_server_io_func klass impl w socket condition).2.server.clients =
        w.server.clients ∧
      (gst_rtsp_server_io_func klass impl w socket condition).2.calls =
        w.calls) ∧
    (∀ c hook, condition &&& G_IO_IN ≠ 0 →
      (call_create_client klass w).1 = some c →
      klass.accept_client = some hook →
      hook (call_create_client klass w).2.server
        (call_create_client klass w).2.heap c socket = false →
      (gst_rtsp_server_io_func klass impl w socket condition).1 = false ∧
      (gst_rtsp_server_io_func klass impl w socket condition).2.server.clients =
        w.server.clients ∧
      (gst_rtsp_server_io_func klass impl w socket condition).2.calls =
        w.calls ++ [Call.client_unref c] ∧
      notified (gst_rtsp_server_io_func klass impl w socket condition).2.calls =
        notified w.calls ∧
      released c (gst_rtsp_server_io_func klass impl w socket condition).2.calls =
        released c w.calls + 1 ∧
      ((gst_rtsp_server_io_func klass impl w socket condition).2.heap.obj
          c).ref_count =
        ((call_create_client klass w).2.heap.obj c).ref_count - 1) ∧
    ((call_create_client klass w).1 = none →
      (gst_rtsp_server_transfer_connection klass impl w socket ip port
        initial_buffer).1 = false ∧
      (gst_rtsp_server_transfer_connection klass impl w socket ip port
        initial_buffer).2.server.clients = w.server.clients ∧
      (gst_rtsp_server_transfer_connection klass impl w socket ip port
        initial_buffer).2.calls = w.calls) ∧
    (∀ c, (call_create_client klass w).1 = some c →
      impl.create_from_socket c socket ip port initial_buffer = false →
      (gst_rtsp_server_transfer_connection klass impl w socket ip port
        initial_buffer).1 = false ∧
      (gst_rtsp_server_transfer_connection klass impl w socket ip port
        initial_buffer).2.server.clients = w.server.clients ∧
      (gst_rtsp_server_transfer_connection klass impl w socket ip port
        initial_buffer).2.calls =
        w.calls ++ [Call.client_create_from_socket c socket ip port
          initial_buffer, Call.client_unref c] ∧
      notified (gst_rtsp_server_transfer_connection klass impl w socket ip port
        initial_buffer).2.calls = notified w.calls ∧
      released c (gst_rtsp_server_transfer_connection klass impl w socket ip
        port initial_buffer).2.calls = released c w.calls + 1 ∧
      ((gst_rtsp_server_transfer_connection klass impl w socket ip port
          initial_buffer).2.heap.obj c).ref_count =
        ((call_create_client klass w).2.heap.obj c).ref_count - 1) := by
  have hs := call_create_client_server klass w
  have hcalls := call_create_client_calls klass w
  unfold gst_rtsp_server_io_func gst_rtsp_server_transfer_connection
  rcases hcc : call_create_client klass w with ⟨oc, w1⟩
  rw [hcc] at hs hcalls
  simp only at hs hcalls
  refine ⟨?_, ?_, ?_, ?_⟩
  · intro hin hnone
    simp only at hnone
    subst hnone
    rw [if_pos hin]
    exact ⟨rfl, congrArg GstRTSPServer.clients hs, hcalls⟩
  · intro c hook hin hc hk hfalse
    simp only at hc hfalse
    subst hc
    rw [if_pos hin]
    simp only [hk, hfalse]
    refine ⟨rfl, ?_, ?_, ?_, ?_, ?_⟩
    · show w1.server.clients = w.server.clients
      rw [hs]
    · show w1.calls ++ [Call.client_unref c] = _
      rw [hcalls]
    · show notified (w1.calls ++ [Call.client_unref c]) = _
      rw [hcalls, notified_append]
      simp [notified]
    · show released c (w1.calls ++ [Call.client_unref c]) = _
      rw [hcalls, released_append]
      simp [released]
    · exact client_unref_ref_count w1 c
  · intro hnone
    simp only at hnone
    subst hnone
    exact ⟨rfl, congrArg GstRTSPServer.clients hs, hcalls⟩
  · intro c hc hfalse
    simp only at hc
    subst hc
    simp only [hfalse]
    refine ⟨rfl, ?_, ?_, ?_, ?_, ?_⟩
    · show w1.server.clients = w.server.clients
      rw [hs]
    · show w1.calls ++ [Call.client_create_from_socket c socket ip port
        initial_buffer] ++ [Call.client_unref c] = _
      rw [hcalls]
      simp
    · show notified (w1.calls ++ [Call.client_create_from_socket c socket ip
        port initial_buffer] ++ [Call.client_unref c]) = _
      rw [hcalls, notified_append, notified_append]
      simp [notified]
    · show released c (w1.calls ++ [Call.client_create_from_socket c socket ip
        port initial_buffer] ++ [Call.client_unref c]) = _
      rw [hcalls, released_append, released_append]
      simp [released]
    · simp [client_unref, ClientHeap.set]

/-- Witness of C9: the hook returns client 7 and the handoff fails, for the
readiness callback and for the transferred connection. -/
theorem C9_witness :
    (gst_rtsp_server_io_func (example_klass_seven example_impl_refusing)
        example_impl_refusing (World.start 1 2) example_socket G_IO_IN).1 =
      false ∧
    (gst_rtsp_server_io_func (example_klass_seven example_impl_refusing)
        example_impl_refusing (World.start 1 2) example_socket
        G_IO_IN).2.calls = [Call.client_unref 7] ∧
    (gst_rtsp_server_transfer_connection
        (example_klass_seven example_impl_refusing) example_impl_refusing
        (World.start 1 2) example_socket "10.0.0.9" 40000
        "GET /x HTTP").2.calls =
      [Call.client_create_from_socket 7 example_socket "10.0.0.9" 40000
        "GET /x HTTP", Call.client_unref 7] :=
  have h := C9_failure_leaves_registry_unchanged
    (example_klass_seven example_impl_refusing) example_impl_refusing
    (World.start 1 2) example_socket G_IO_IN "10.0.0.9" 40000 "GET /x HTTP"
  have hio := h.2.1 7 (default_accept_client example_impl_refusing)
    (by decide) rfl rfl rfl
  have htr := h.2.2.2 7 rfl rfl
  ⟨hio.1, hio.2.2.1, htr.2.2.1⟩

theorem handed_over_append (a b : List Call) :
    handed_over (a ++ b) = handed_over a ++ handed_over b := by
  simp [handed_over, List.filterMap_append]

/-- C10: when the create-client hook (the one `gst_rtsp_server_io_func` calls)
returns client `c`, `gst_rtsp_server_transfer_connection` calls
`gst_rtsp_client_create_from_socket` exactly once, on `c`, with exactly the
socket, ip, port and initial buffer it was given.  If that call succeeds the
function returns `TRUE`, `c` is added to the active-client list and the calls
that follow the handoff are the same registration and `client-connected`
emission, in the same order, that a successful readiness callback makes, and
both leave the same server state and client objects. -/
theorem C10_transfer_hands_over_initial_buffer (klass : GstRTSPServerClass)
    (impl : ClientImpl) (w : World) (socket : GSocket) (ip : String)
    (port : Int) (initial_buffer : String) (c : ClientPtr)
    (hc : (call_create_client klass w).1 = some c) :
    handed_over (gst_rtsp_server_transfer_connection klass impl w socket ip
        port initial_buffer).2.calls =
      handed_over w.calls ++ [(c, socket, ip, port, initial_buffer)] ∧
    (impl.create_from_socket c socket ip port initial_buffer = true →
      (gst_rtsp_server_transfer_connection klass impl w socket ip port
        initial_buffer).1 = true ∧
      (gst_rtsp_server_transfer_connection klass impl w socket ip port
        initial_buffer).2.server.clients = c :: w.server.clients ∧
      (gst_rtsp_server_transfer_connection klass impl w socket ip port
        initial_buffer).2.calls =
        w.calls ++ [Call.client_create_from_socket c socket ip port
          initial_buffer, Call.client_set_server c true,
          Call.signal_connect_closed c, Call.list_prepend c,
          Call.emit_client_connected c] ∧
      ∀ (listener : GSocket) (condition : Nat),
        condition &&& G_IO_IN ≠ 0 →
        (∀ hook, klass.accept_client = some hook →
          hook (call_create_client klass w).2.server
            (call_create_client klass w).2.heap c listener = true) →
        (gst_rtsp_server_io_func klass impl w listener condition).1 = true ∧
        (gst_rtsp_server_io_func klass impl w listener condition).2.server =
          (gst_rtsp_server_transfer_connection klass impl w socket ip port
            initial_buffer).2.server ∧
        (gst_rtsp_server_io_func klass impl w listener condition).2.heap.obj =
          (gst_rtsp_server_transfer_connection klass impl w socket ip port
            initial_buffer).2.heap.obj ∧
        (gst_rtsp_server_io_func klass impl w listener condition).2.calls =
          w.calls ++ [Call.client_set_server c true,
            Call.signal_connect_closed c, Call.list_prepend c,
            Call.emit_client_connected c]) := by
  have hs := call_create_client_server klass w
  have hcalls := call_create_client_calls klass w
  unfold gst_rtsp_server_transfer_connection gst_rtsp_server_io_func
  rcases hcc : call_create_client klass w with ⟨oc, w1⟩
  rw [hcc] at hc hs hcalls
  simp only at hc hs hcalls
  subst hc
  refine ⟨?_, ?_⟩
  · cases hok : impl.create_from_socket c socket ip port initial_buffer
    · simp only [hok]
      show handed_over (w1.calls ++ [Call.client_create_from_socket c socket ip
        port initial_buffer] ++ [Call.client_unref c]) = _
      rw [hcalls, handed_over_append, handed_over_append]
      simp [handed_over]
    · simp only [hok]
      show handed_over ((manage_client impl
        { w1 with calls := w1.calls ++ [Call.client_create_from_socket c socket
            ip port initial_buffer] } c).calls ++
          [Call.emit_client_connected c]) = _
      rw [manage_client_calls, hcalls]
      simp [handed_over]
  · intro hok
    simp only [hok]
    refine ⟨rfl, ?_, ?_, ?_⟩
    · show (manage_client impl
        { w1 with calls := w1.calls ++ [Call.client_create_from_socket c socket
            ip port initial_buffer] } c).server.clients = _
      rw [manage_client_clients, hs]
    · show (manage_client impl
        { w1 with calls := w1.calls ++ [Call.client_create_from_socket c socket
            ip port initial_buffer] } c).calls ++
          [Call.emit_client_connected c] = _
      rw [manage_client_calls, hcalls]
      simp
    · intro listener condition hin hacc
      rw [if_pos hin]
      have hres : (match klass.accept_client with
          | none => true
          | some hook => hook w1.server w1.heap c listener) = true := by
        cases hk : klass.accept_client with
        | none => rfl
        | some hook => exact hacc hook hk
      simp only [hres]
      refine ⟨rfl, rfl, rfl, ?_⟩
      show (manage_client impl w1 c).calls ++ [Call.emit_client_connected c] = _
      rw [manage_client_calls, hcalls]
      simp

/-- Witness of C10: the buffer "GET /x HTTP" reaches client 7 unchanged, once. -/
theorem C10_witness :
    handed_over (gst_rtsp_server_transfer_connection
        (example_klass_seven example_impl) example_impl (World.start 1 2)
        example_socket "10.0.0.9" 40000 "GET /x HTTP").2.calls =
      [(7, example_socket, "10.0.0.9", 40000, "GET /x HTTP")] ∧
    (gst_rtsp_server_transfer_connection
        (example_klass_seven example_impl) example_impl (World.start 1 2)
        example_socket "10.0.0.9" 40000 "GET /x HTTP").2.server.clients = [7] :=
  have h := C10_transfer_hands_over_initial_buffer
    (example_klass_seven example_impl) example_impl (World.start 1 2)
    example_socket "10.0.0.9" 40000 "GET /x HTTP" 7 rfl
  ⟨h.1, (h.2 rfl).2.1⟩

/-! ## C7: manage, then the `closed` notification -/

theorem g_list_remove_head (l : List ClientPtr) (c : ClientPtr) :
    g_list_remove (g_list_prepend l c) c = l := by
  simp [g_list_remove, g_list_prepend]

theorem g_list_remove_eq_erase (l : List ClientPtr) (c : ClientPtr) :
    g_list_remove l c = l.erase c := by
  induction l with
  | nil => rfl
  | cons x xs ih =>
    by_cases hx : x = c
    · simp [g_list_remove, hx]
    · simp [g_list_remove, hx, ih, List.erase_cons_tail]

theorem unmanage_client_effect (impl : ClientImpl) (w : World) (c : ClientPtr) :
    (unmanage_client impl w c).server.clients =
      g_list_remove w.server.clients c ∧
    (unmanage_client impl w c).server.socket = w.server.socket ∧
    released c (unmanage_client impl w c).calls = released c w.calls + 1 ∧
    ((unmanage_client impl w c).heap.obj c).closed_handlers =
      (w.heap.obj c).closed_handlers := by
  refine ⟨rfl, rfl, ?_, ?_⟩
  · simp [unmanage_client, client_unref, server_unref, server_ref,
      gst_rtsp_client_set_server, released, List.count_append]
  · simp [unmanage_client, client_unref, server_unref, server_ref,
      gst_rtsp_client_set_server, ClientHeap.set]

/-- What `n` runs of the `closed` handler do: the socket handle is untouched,
the client is released `n` times, and `n` occurrences of the client (as many
as there are) leave the active-client list. -/
theorem run_closed_handlers_effect (impl : ClientImpl) (c : ClientPtr) :
    ∀ (n : Nat) (w : World),
      (run_closed_handlers impl c n w).server.socket = w.server.socket ∧
      released c (run_closed_handlers impl c n w).calls =
        released c w.calls + n ∧
      (run_closed_handlers impl c n w).server.clients.count c =
        w.server.clients.count c - n := by
  intro n
  induction n with
  | zero => intro w; exact ⟨rfl, rfl, rfl⟩
  | succ n ih =>
    intro w
    obtain ⟨h1, h2, h3⟩ := ih (unmanage_client impl w c)
    obtain ⟨e1, e2, e3, _⟩ := unmanage_client_effect impl w c
    refine ⟨?_, ?_, ?_⟩
    · show (run_closed_handlers impl c n (unmanage_client impl w c)).server.socket
        = _
      rw [h1, e2]
    · show released c
        (run_closed_handlers impl c n (unmanage_client impl w c)).calls = _
      rw [h2, e3]
      omega
    · show (run_closed_handlers impl c n
        (unmanage_client impl w c)).server.clients.count c = _
      rw [h3, e1, g_list_remove_eq_erase, List.count_erase_self]
      omega

theorem manage_client_closed_handlers (impl : ClientImpl) (w : World)
    (c : ClientPtr) :
    ((manage_client impl w c).heap.obj c).closed_handlers =
      (w.heap.obj c).closed_handlers + 1 := by
  simp [manage_client, gst_rtsp_client_set_server, ClientHeap.set]

/-- After `manage_client`, one `closed` emission runs `unmanage_client` once
for this and once for every earlier connection: the client is released that
many times, and it is absent from the list afterwards whenever the list held
it no more often than handlers were connected (as in every state the server
itself produces). -/
theorem closed_after_manage (impl : ClientImpl) (w : World) (c : ClientPtr) :
    released c (emit_closed impl (manage_client impl w c) c).calls =
      released c w.calls + ((w.heap.obj c).closed_handlers + 1) ∧
    (w.server.clients.count c ≤ (w.heap.obj c).closed_handlers →
      c ∉ (emit_closed impl (manage_client impl w c) c).server.clients) := by
  obtain ⟨_, h2, h3⟩ := run_closed_handlers_effect impl c
    ((w.heap.obj c).closed_handlers + 1) (manage_client impl w c)
  have hm : released c (manage_client impl w c).calls = released c w.calls := by
    simp [manage_client, gst_rtsp_client_set_server, released,
      List.count_append]
  unfold emit_closed
  rw [manage_client_closed_handlers]
  refine ⟨by rw [h2, hm], ?_⟩
  intro hle
  rw [manage_client_clients, List.count_cons_self] at h3
  exact List.count_eq_zero.mp (by omega)

/-- C7 (as amended): for a client the server has not managed before, no
`closed` handler of the server connected to it, not in the active-client list
and without a server back-reference, `manage_client` followed by the `closed`
notification of the client leaves the client absent from the list, which is
again the list before `manage_client`; the client is released exactly once,
its reference count dropping by one; its back-reference is cleared; and the
reference count of the server is what it was before `manage_client`. -/
theorem C7_manage_then_closed (impl : ClientImpl) (w : World) (c : ClientPtr)
    (hfirst : (w.heap.obj c).closed_handlers = 0)
    (hnew : c ∉ w.server.clients) (hback : (w.heap.obj c).server = false) :
    c ∉ (emit_closed impl (manage_client impl w c) c).server.clients ∧
    (emit_closed impl (manage_client impl w c) c).server.clients =
      w.server.clients ∧
    released c (emit_closed impl (manage_client impl w c) c).calls =
      released c w.calls + 1 ∧
    ((emit_closed impl (manage_client impl w c) c).heap.obj c).ref_count =
      (w.heap.obj c).ref_count - 1 ∧
    ((emit_closed impl (manage_client impl w c) c).heap.obj c).server =
      false ∧
    (emit_closed impl (manage_client impl w c) c).server.ref_count =
      w.server.ref_count := by
  have hone : emit_closed impl (manage_client impl w c) c =
      unmanage_client impl (manage_client impl w c) c := by
    unfold emit_closed
    rw [manage_client_closed_handlers, hfirst]
    rfl
  rw [hone]
  have hclients :
      (unmanage_client impl (manage_client impl w c) c).server.clients =
        w.server.clients := by
    show g_list_remove (g_list_prepend w.server.clients c) c = w.server.clients
    exact g_list_remove_head _ _
  refine ⟨?_, hclients, ?_, ?_, ?_, ?_⟩
  · rw [hclients]; exact hnew
  · simp [unmanage_client, manage_client, client_unref, server_unref,
      server_ref, gst_rtsp_client_set_server, released, List.count_append]
  · simp [unmanage_client, manage_client, client_unref, server_unref,
      server_ref, gst_rtsp_client_set_server, ClientHeap.set]
  · simp [unmanage_client, manage_client, client_unref, server_unref,
      server_ref, gst_rtsp_client_set_server, ClientHeap.set]
  · cases hb : impl.backref_owns <;>
      simp [unmanage_client, manage_client, client_unref, server_unref,
        server_ref, gst_rtsp_client_set_server, ClientHeap.set, hb, hback]

/-- Counterexample to C7: client 7 was managed and closed once before, so it
is not in the list and has no back-reference, but one `closed` handler of the
server is still connected to it; after another `manage_client` its `closed`
notification runs `unmanage_client` twice: the client leaves the list, but it
is released twice, not once. -/
theorem C7_counterexample :
    example_world_closed.server.clients = [] ∧
    (example_world_closed.heap.obj 7).server = false ∧
    (example_world_closed.heap.obj 7).closed_handlers = 1 ∧
    (emit_closed example_impl
      (manage_client example_impl example_world_closed 7) 7).server.clients =
      [] ∧
    released 7 (emit_closed example_impl
      (manage_client example_impl example_world_closed 7) 7).calls =
      released 7 example_world_closed.calls + 2 ∧
    ((emit_closed example_impl
      (manage_client example_impl example_world_closed 7) 7).heap.obj
        7).ref_count =
      (example_world_closed.heap.obj 7).ref_count - 2 := by
  decide

/-- Witness of C7: client 7 on a new server. -/
theorem C7_witness :
    7 ∉ (World.start 1 2).server.clients ∧
    ((World.start 1 2).heap.obj 7).server = false ∧
    (emit_closed example_impl
      (manage_client example_impl (World.start 1 2) 7) 7).server.clients = [] ∧
    (emit_closed example_impl
      (manage_client example_impl (World.start 1 2) 7) 7).server.ref_count = 1 :=
  have h := C7_manage_then_closed example_impl (World.start 1 2) 7
    rfl (by decide) rfl
  ⟨by decide, rfl, h.2.1, h.2.2.2.2.2⟩

/-! ## C6: the bound-socket handle -/

theorem call_create_client_socket (klass : GstRTSPServerClass) (w : World) :
    (call_create_client klass w).2.server.socket = w.server.socket := by
  rw [call_create_client_server]

theorem io_func_socket (klass : GstRTSPServerClass) (impl : ClientImpl)
    (w : World) (socket : GSocket) (condition : Nat) :
    (gst_rtsp_server_io_func klass impl w socket condition).2.server.socket =
      w.server.socket := by
  have hs := call_create_client_server klass w
  unfold gst_rtsp_server_io_func
  rcases hcc : call_create_client klass w with ⟨oc, w1⟩
  rw [hcc] at hs
  simp only at hs
  by_cases hin : condition &&& G_IO_IN ≠ 0
  · rw [if_pos hin]
    cases oc with
    | none => exact congrArg GstRTSPServer.socket hs
    | some c =>
      simp only
      split
      · exact congrArg GstRTSPServer.socket hs
      · show (manage_client impl _ c).server.socket = w.server.socket
        rw [manage_client_socket]
        exact congrArg GstRTSPServer.socket hs
  · rw [if_neg hin]

theorem transfer_connection_socket (klass : GstRTSPServerClass)
    (impl : ClientImpl) (w : World) (socket : GSocket) (ip : String)
    (port : Int) (initial_buffer : String) :
    (gst_rtsp_server_transfer_connection klass impl w socket ip port
      initial_buffer).2.server.socket = w.server.socket := by
  have hs := call_create_client_server klass w
  unfold gst_rtsp_server_transfer_connection
  rcases hcc : call_create_client klass w with ⟨oc, w1⟩
  rw [hcc] at hs
  simp only at hs
  cases oc with
  | none => exact congrArg GstRTSPServer.socket hs
  | some c =>
    simp only
    split
    · exact congrArg GstRTSPServer.socket hs
    · show (manage_client impl _ c).server.socket = w.server.socket
      rw [manage_client_socket]
      exact congrArg GstRTSPServer.socket hs

/-- C6 (as amended): a new server has no bound socket; a
`gst_rtsp_server_create_source` or `gst_rtsp_server_attach` call whose
`gst_rtsp_server_create_socket` returns a socket stores that socket in the
handle, whatever the handle held before; every other public operation leaves
the handle as it was. -/
theorem C6_socket_handle_written_by_create_source (klass : GstRTSPServerClass)
    (impl : ClientImpl) (w w1 : World) (op : PublicOp)
    (hstep : step klass impl w op = Except.ok w1) :
    (∀ pool mapping, (gst_rtsp_server_init pool mapping).socket = none) ∧
    (∀ net error r s, op = PublicOp.create_source net error →
      gst_rtsp_server_create_socket w.server net error = Except.ok r →
      r.ret = some s → w1.server.socket = some s) ∧
    (∀ net id r s, op = PublicOp.attach net id →
      gst_rtsp_server_create_socket w.server net (some none) = Except.ok r →
      r.ret = some s → w1.server.socket = some s) ∧
    ((∀ net error, op ≠ PublicOp.create_source net error) →
      (∀ net id, op ≠ PublicOp.attach net id) →
      w1.server.socket = w.server.socket) := by
  refine ⟨fun _ _ => rfl, ?_, ?_, ?_⟩
  · intro net error r s hop hr hs
    subst hop
    simp only [step, gst_rtsp_server_create_source, hr, hs] at hstep
    cases hstep
    rfl
  · intro net id r s hop hr hs
    subst hop
    simp only [step, gst_rtsp_server_attach, gst_rtsp_server_create_source, hr,
      hs] at hstep
    cases hstep
    rfl
  · intro h1 h2
    cases op with
    | create_source net error => exact absurd rfl (h1 net error)
    | attach net id => exact absurd rfl (h2 net id)
    | io_func socket condition =>
      simp only [step] at hstep
      cases hstep
      exact io_func_socket klass impl w socket condition
    | transfer_connection socket ip port initial_buffer =>
      simp only [step] at hstep
      cases hstep
      exact transfer_connection_socket klass impl w socket ip port
        initial_buffer
    | client_closed c =>
      simp only [step] at hstep
      cases hstep
      exact (run_closed_handlers_effect impl c _ w).1
    | set_address a => simp only [step] at hstep; cases hstep; rfl
    | set_service a => simp only [step] at hstep; cases hstep; rfl
    | set_backlog a => simp only [step] at hstep; cases hstep; rfl
    | set_session_pool a => simp only [step] at hstep; cases hstep; rfl
    | set_media_mapping a => simp only [step] at hstep; cases hstep; rfl
    | set_auth a => simp only [step] at hstep; cases hstep; rfl

/-- Counterexample to C6: a new server is attached on port 8554, the service
is set to 8555 and the server is attached again; the handle first holds the
socket bound to port 8554 and afterwards a different socket, bound to 8555. -/
theorem C6_counterexample :
    bound_socket (run (gst_rtsp_server_class_init example_impl) example_impl
        (World.start 1 2) [PublicOp.attach example_resolver 1]) =
      some { family := GSocketFamily.ipv4, bound_to := some example_addr4,
             local_port := 8554, keepalive := true, blocking := false,
             listen_backlog := 5, listening := true } ∧
    bound_socket (run (gst_rtsp_server_class_init example_impl) example_impl
        (World.start 1 2)
        [PublicOp.attach example_resolver 1, PublicOp.set_service "8555",
         PublicOp.attach example_resolver 2]) =
      some { family := GSocketFamily.ipv4, bound_to := some example_addr4b,
             local_port := 8555, keepalive := true, blocking := false,
             listen_backlog := 5, listening := true } ∧
    bound_socket (run (gst_rtsp_server_class_init example_impl) example_impl
        (World.start 1 2) [PublicOp.attach example_resolver 1]) ≠
    bound_socket (run (gst_rtsp_server_class_init example_impl) example_impl
        (World.start 1 2)
        [PublicOp.attach example_resolver 1, PublicOp.set_service "8555",
         PublicOp.attach example_resolver 2]) := by
  decide

/-- Witness of C6: the first attach of a new server on port 8554. -/
theorem C6_witness :
    step (gst_rtsp_server_class_init example_impl) example_impl
        (World.start 1 2) (PublicOp.attach example_resolver 1) =
      Except.ok
        (bound_world (step (gst_rtsp_server_class_init example_impl)
          example_impl (World.start 1 2)
          (PublicOp.attach example_resolver 1))) ∧
    (bound_world (step (gst_rtsp_server_class_init example_impl)
        example_impl (World.start 1 2)
        (PublicOp.attach example_resolver 1))).server.socket =
      some { family := GSocketFamily.ipv4, bound_to := some example_addr4,
             local_port := 8554, keepalive := true, blocking := false,
             listen_backlog := 5, listening := true } :=
  ⟨rfl,
   (C6_socket_handle_written_by_create_source
     (gst_rtsp_server_class_init example_impl) example_impl (World.start 1 2)
     _ (PublicOp.attach example_resolver 1) rfl).2.2.1 example_resolver 1 _ _
     rfl rfl rfl⟩

/-! ## C11: configuration of the bound socket and listen -/

theorem configuration_calls_append (a b : List Call) :
    configuration_calls (a ++ b) =
      configuration_calls a ++ configuration_calls b := by
  simp [configuration_calls, List.filter_append]

theorem create_socket_loop_exit (fe : Option GError) :
    ∀ (cands : List Candidate) (error : ErrorLoc) (se be : Option GError)
      (calls : List Call) (exit : LoopExit),
      create_socket_loop fe cands error se be calls = Except.ok exit →
      configuration_calls exit.calls = configuration_calls calls ∧
      (exit.socket.isSome = true → exit.error = error) ∧
      (∀ socket c, exit.socket = some (socket, c) →
        socket = g_socket_bind (g_socket_new c.sockaddr.family) c ∧
        c.bindable = true) := by
  intro cands
  induction cands with
  | nil =>
    intro error se be calls exit h
    cases error with
    | none => simp [create_socket_loop] at h
    | some e =>
      simp only [create_socket_loop, Except.ok.injEq] at h
      subst h
      refine ⟨?_, ?_, ?_⟩
      · simp [configuration_calls_append, configuration_calls]
      · intro hs; simp at hs
      · intro socket c hs; simp at hs
  | cons d rest ih =>
    intro error se be calls exit h
    cases hn : d.new_error with
    | some e =>
      simp only [create_socket_loop, hn] at h
      obtain ⟨h1, h2, h3⟩ := ih _ _ _ _ _ h
      refine ⟨?_, h2, h3⟩
      rw [h1]
      simp [configuration_calls_append, configuration_calls]
    | none =>
      cases hbe : d.bind_error with
      | some e =>
        simp only [create_socket_loop, hn, hbe] at h
        obtain ⟨h1, h2, h3⟩ := ih _ _ _ _ _ h
        refine ⟨?_, h2, h3⟩
        rw [h1]
        simp [configuration_calls_append, configuration_calls]
      | none =>
        simp only [create_socket_loop, hn, hbe, Except.ok.injEq] at h
        subst h
        refine ⟨?_, ?_, ?_⟩
        · simp [configuration_calls_append, configuration_calls]
        · intro _; rfl
        · intro socket c hs
          simp only [Option.some.injEq, Prod.mk.injEq] at hs
          obtain ⟨hs1, hs2⟩ := hs
          subst hs2
          exact ⟨hs1.symm, by simp [Candidate.bindable, hn, hbe]⟩

/-- C11: whenever the candidate loop of `gst_rtsp_server_create_socket` leaves
a bound socket (bound to candidate `c`), the loop itself made no configuration
call, and the function then makes exactly these calls, in this order:
keepalive on, blocking off, listen backlog set to the backlog configured on
the server, listen.  If listen succeeds the configured listening socket is
returned; if listen fails with `e` the socket is released, `NULL` is returned
and the listen error is what is propagated to the caller's error location
(an empty location then holds `e`). -/
theorem C11_configure_then_listen (server : GstRTSPServer) (net : Resolver)
    (error : ErrorLoc) (exit : LoopExit) (socket : GSocket) (c : Candidate)
    (hloop : create_socket_loop
      (net (create_socket_connectable server)).final_error
      (net (create_socket_connectable server)).addrs error none none [] =
        Except.ok exit)
    (hsock : exit.socket = some (socket, c)) :
    configuration_calls exit.calls = [] ∧
    ∃ r, gst_rtsp_server_create_socket server net error = Except.ok r ∧
      r.calls = exit.calls ++
        [Call.set_keepalive true, Call.set_blocking false,
         Call.set_listen_backlog server.backlog,
         Call.socket_listen c.listen_error.isNone] ++
        (if c.listen_error.isSome then [Call.socket_unref] else []) ∧
      configuration_calls r.calls =
        [Call.set_keepalive true, Call.set_blocking false,
         Call.set_listen_backlog server.backlog,
         Call.socket_listen c.listen_error.isNone] ∧
      (c.listen_error = none →
        r.ret = some
          { family := c.sockaddr.family, bound_to := some c.sockaddr,
            local_port := c.local_port, keepalive := true, blocking := false,
            listen_backlog := server.backlog, listening := true } ∧
        r.error = error) ∧
      (∀ e, c.listen_error = some e →
        r.ret = none ∧ r.error = g_propagate_error error e ∧
        (error = some none → r.error = some (some e))) := by
  obtain ⟨h1, h2, h3⟩ := create_socket_loop_exit _ _ _ _ _ _ _ hloop
  have herr : exit.error = error := h2 (by rw [hsock]; rfl)
  obtain ⟨hsocket, _⟩ := h3 socket c hsock
  have hcfg : configuration_calls exit.calls = [] := by
    rw [h1]; rfl
  refine ⟨hcfg, ?_⟩
  cases hl : c.listen_error with
  | none =>
    have hr : gst_rtsp_server_create_socket server net error =
        Except.ok
          { ret := some
              { family := socket.family, bound_to := socket.bound_to,
                local_port := socket.local_port, keepalive := true,
                blocking := false, listen_backlog := server.backlog,
                listening := true },
            error := exit.error,
            calls := exit.calls ++
              [Call.set_keepalive true, Call.set_blocking false,
               Call.set_listen_backlog server.backlog] ++
              [Call.socket_listen true] } := by
      simp only [gst_rtsp_server_create_socket, hloop, hsock, hl]
    refine ⟨_, hr, ?_, ?_, ?_, ?_⟩
    · simp
    · show configuration_calls (exit.calls ++
          [Call.set_keepalive true, Call.set_blocking false,
           Call.set_listen_backlog server.backlog] ++
          [Call.socket_listen true]) = _
      rw [configuration_calls_append, configuration_calls_append, hcfg]
      rfl
    · intro _
      exact ⟨by simp [hsocket, g_socket_bind, g_socket_new], herr⟩
    · intro e he; cases he
  | some e0 =>
    have hr : gst_rtsp_server_create_socket server net error =
        Except.ok
          (close_error
            (some
              { family := socket.family, bound_to := socket.bound_to,
                local_port := socket.local_port, keepalive := true,
                blocking := false, listen_backlog := server.backlog,
                listening := socket.listening })
            (g_set_result exit.error (some e0)) none none
            (exit.calls ++
              [Call.set_keepalive true, Call.set_blocking false,
               Call.set_listen_backlog server.backlog] ++
              [Call.socket_listen false])) := by
      simp only [gst_rtsp_server_create_socket, hloop, hsock, hl]
    refine ⟨_, hr, ?_, ?_, ?_, ?_⟩
    · simp [close_error]
    · show configuration_calls (exit.calls ++
          [Call.set_keepalive true, Call.set_blocking false,
           Call.set_listen_backlog server.backlog] ++
          [Call.socket_listen false] ++ [Call.socket_unref]) = _
      rw [configuration_calls_append, configuration_calls_append,
        configuration_calls_append, hcfg]
      rfl
    · intro he; cases he
    · intro e he
      cases he
      refine ⟨rfl, ?_, ?_⟩
      · simp [close_error, g_set_result, herr]
      · intro hempty
        subst hempty
        simp [close_error, g_set_result, herr, g_propagate_error]

/-- Witness of C11: the IPv6 bind fails, the IPv4 socket binds and listen
fails on it; the caller gets `NULL` and the listen error, after the four
configuration calls. -/
theorem C11_witness :
    ∃ r, gst_rtsp_server_create_socket example_server
        (example_net example_candidates_nolisten) (some none) = Except.ok r ∧
      configuration_calls r.calls =
        [Call.set_keepalive true, Call.set_blocking false,
         Call.set_listen_backlog 5, Call.socket_listen false] ∧
      r.ret = none ∧ r.error = some (some example_listen_error) :=
  have h := C11_configure_then_listen example_server
    (example_net example_candidates_nolisten) (some none) example_loop_exit
    _ _ rfl rfl
  Exists.elim h.2 fun r hr =>
    ⟨r, hr.1, hr.2.2.1,
      (hr.2.2.2.2 example_listen_error rfl).1,
      (hr.2.2.2.2 example_listen_error rfl).2.2 rfl⟩

/-! ## C12: the bound port -/

theorem to_guint16_range (n : Nat) :
    (0 : Int) ≤ (to_guint16 (n : Int) : Int) ∧
    (to_guint16 (n : Int) : Int) ≤ 65535 ∧
    (to_guint16 (n : Int) : Int) ≠ -1 ∧
    (n < 65536 → (to_guint16 (n : Int) : Int) = (n : Int)) := by
  unfold to_guint16
  have h0 : (0 : Int) ≤ (n : Int) % 65536 := Int.emod_nonneg _ (by decide)
  have h1 : (n : Int) % 65536 < 65536 := Int.emod_lt_of_pos _ (by decide)
  rw [Int.toNat_of_nonneg h0]
  refine ⟨h0, by omega, by omega, ?_⟩
  intro hn
  omega

/-- What `gst_rtsp_server_get_bound_port` returns in a given state: `-1` on
a new server and on every server without a socket handle; with a handle, the
`guint16` local port of that socket, between 0 and 65535 and never `-1`. -/
theorem bound_port_of_handle :
    (∀ pool mapping,
      gst_rtsp_server_get_bound_port (gst_rtsp_server_init pool mapping) = -1) ∧
    (∀ server : GstRTSPServer, server.socket = none →
      gst_rtsp_server_get_bound_port server = -1) ∧
    (∀ (server : GstRTSPServer) (socket : GSocket),
      server.socket = some socket →
      gst_rtsp_server_get_bound_port server =
        (to_guint16 (socket.local_port : Int) : Int) ∧
      0 ≤ gst_rtsp_server_get_bound_port server ∧
      gst_rtsp_server_get_bound_port server ≤ 65535 ∧
      gst_rtsp_server_get_bound_port server ≠ -1 ∧
      (socket.local_port < 65536 →
        gst_rtsp_server_get_bound_port server = (socket.local_port : Int))) := by
  refine ⟨fun _ _ => rfl, ?_, ?_⟩
  · intro server h
    simp [gst_rtsp_server_get_bound_port, h]
  · intro server socket h
    have hp : gst_rtsp_server_get_bound_port server =
        (to_guint16 (socket.local_port : Int) : Int) := by
      simp [gst_rtsp_server_get_bound_port, h]
    obtain ⟨h0, h1, h2, h3⟩ := to_guint16_range socket.local_port
    rw [hp]
    exact ⟨rfl, h0, h1, h2, h3⟩

/-- C12 (the code at the failing input): a new server is attached and bound to
port 8554, where `gst_rtsp_server_get_bound_port` returns 8554; a second
`gst_rtsp_server_attach`, whose binds fail, returns 0, and afterwards
`gst_rtsp_server_get_bound_port` returns `-1`, although a socket has been
bound: `gst_rtsp_server_create_source` stored `g_object_ref (NULL)` in the
handle before testing the socket for `NULL`. -/
theorem C12_bound_port_lost_after_failed_attach :
    ((run (gst_rtsp_server_class_init example_impl) example_impl
        (World.start 1 2) [PublicOp.attach example_resolver 1]).toOption.map
      fun w => gst_rtsp_server_get_bound_port w.server) = some 8554 ∧
    ((gst_rtsp_server_attach
        (bound_world (run (gst_rtsp_server_class_init example_impl)
          example_impl (World.start 1 2)
          [PublicOp.attach example_resolver 1]))
        (example_net example_candidates_busy) 2).toOption.map Prod.fst) =
      some 0 ∧
    ((run (gst_rtsp_server_class_init example_impl) example_impl
        (World.start 1 2)
        [PublicOp.attach example_resolver 1,
         PublicOp.attach (example_net example_candidates_busy) 2]).toOption.map
      fun w => gst_rtsp_server_get_bound_port w.server) = some (-1) := by
  refine ⟨?_, ?_, ?_⟩ <;> rfl

/-! ## C13: what the default create-client hook hands to the client -/

/-- C13: the default create-client hook, installed by
`gst_rtsp_server_class_init`, returns a new client whose session pool, media
mapping and auth are the ones stored in the server at the time of the call;
so after the three setters the next client created holds exactly the pool,
mapping and auth that were set. -/
theorem C13_default_client_gets_server_collaborators :
    (∀ impl, (gst_rtsp_server_class_init impl).create_client =
      some default_create_client) ∧
    (∀ (server : GstRTSPServer) (h : ClientHeap),
      (default_create_client server h).1 = some h.next ∧
      ((default_create_client server h).2.obj h.next).session_pool =
        server.session_pool ∧
      ((default_create_client server h).2.obj h.next).media_mapping =
        server.media_mapping ∧
      ((default_create_client server h).2.obj h.next).auth = server.auth) ∧
    (∀ (server : GstRTSPServer) (h : ClientHeap) (p m a : Option Nat),
      ((default_create_client
          (gst_rtsp_server_set_auth
            (gst_rtsp_server_set_media_mapping
              (gst_rtsp_server_set_session_pool server p) m) a) h).2.obj
          h.next).session_pool = p ∧
      ((default_create_client
          (gst_rtsp_server_set_auth
            (gst_rtsp_server_set_media_mapping
              (gst_rtsp_server_set_session_pool server p) m) a) h).2.obj
          h.next).media_mapping = m ∧
      ((default_create_client
          (gst_rtsp_server_set_auth
            (gst_rtsp_server_set_media_mapping
              (gst_rtsp_server_set_session_pool server p) m) a) h).2.obj
          h.next).auth = a) := by
  refine ⟨fun _ => rfl, ?_, ?_⟩
  · intro server h
    simp [default_create_client, gst_rtsp_client_new, ClientHeap.set]
  · intro server h p m a
    simp [default_create_client, gst_rtsp_client_new, ClientHeap.set,
      gst_rtsp_server_set_auth, gst_rtsp_server_set_media_mapping,
      gst_rtsp_server_set_session_pool]

/-! ## C19: what `unmanage_client` removes from the list -/

theorem g_list_remove_not_mem :
    ∀ (l : List ClientPtr) (c : ClientPtr), c ∉ l → g_list_remove l c = l := by
  intro l c
  induction l with
  | nil => intro _; rfl
  | cons x xs ih =>
    intro h
    have hx : x ≠ c := fun e => h (e ▸ List.mem_cons_self x xs)
    have hxs : c ∉ xs := fun m => h (List.mem_cons_of_mem x m)
    simp [g_list_remove, hx, ih hxs]

theorem g_list_remove_split :
    ∀ (pre post : List ClientPtr) (c : ClientPtr), c ∉ pre →
      g_list_remove (pre ++ c :: post) c = pre ++ post := by
  intro pre post c
  induction pre with
  | nil => intro _; simp [g_list_remove]
  | cons x xs ih =>
    intro h
    have hx : x ≠ c := fun e => h (e ▸ List.mem_cons_self x xs)
    have hxs : c ∉ xs := fun m => h (List.mem_cons_of_mem x m)
    simp [g_list_remove, hx, ih hxs]

theorem unmanage_client_clients (impl : ClientImpl) (w : World)
    (c : ClientPtr) :
    (unmanage_client impl w c).server.clients =
      g_list_remove w.server.clients c := rfl

/-- C19: `unmanage_client` leaves a list without `c` unchanged, and from a list
in which the first occurrence of `c` sits between `pre` and `post` it removes
just that occurrence, leaving `pre ++ post`: every other entry, later copies
of `c` included, stays in its place and order.  So `manage_client` followed by
`unmanage_client` gives back exactly the list before `manage_client`,
whatever it contained. -/
theorem C19_unmanage_removes_first_occurrence (impl : ClientImpl) (w : World)
    (c : ClientPtr) :
    (c ∉ w.server.clients →
      (unmanage_client impl w c).server.clients = w.server.clients) ∧
    (∀ pre post, w.server.clients = pre ++ c :: post → c ∉ pre →
      (unmanage_client impl w c).server.clients = pre ++ post) ∧
    (unmanage_client impl w c).server.clients = w.server.clients.erase c ∧
    (unmanage_client impl (manage_client impl w c) c).server.clients =
      w.server.clients := by
  refine ⟨?_, ?_, ?_, ?_⟩
  · intro h
    rw [unmanage_client_clients, g_list_remove_not_mem _ _ h]
  · intro pre post hsplit hpre
    rw [unmanage_client_clients, hsplit, g_list_remove_split _ _ _ hpre]
  · rw [unmanage_client_clients]
    generalize w.server.clients = l
    induction l with
    | nil => rfl
    | cons x xs ih =>
      by_cases hx : x = c
      · simp [g_list_remove, hx]
      · simp [g_list_remove, hx, ih, List.erase_cons_tail]
  · rw [unmanage_client_clients, manage_client_clients]
    simp [g_list_remove]

/-! ## The media factory: the build stages -/

theorem get_element_count_append (a b : List FactoryCall) :
    get_element_count (a ++ b) = get_element_count a + get_element_count b := by
  simp [get_element_count, List.filter_append]

theorem cache_calls_append (a b : List FactoryCall) :
    cache_calls (a ++ b) = cache_calls a ++ cache_calls b := by
  simp [cache_calls, List.filter_append]

theorem construct_build_factory (klass : GstRTSPMediaFactoryClass)
    (w : FactoryWorld) (url : GstRTSPUrl) :
    (construct_build klass w url).2.factory = w.factory := by
  unfold construct_build
  cases klass.get_element w.factory url with
  | none => rfl
  | some element =>
    simp only
    cases gst_rtsp_media_factory_collect_streams element <;> rfl

theorem construct_build_calls (klass : GstRTSPMediaFactoryClass)
    (w : FactoryWorld) (url : GstRTSPUrl) :
    get_element_count (construct_build klass w url).2.calls =
      get_element_count w.calls + 1 ∧
    cache_calls (construct_build klass w url).2.calls = cache_calls w.calls := by
  unfold construct_build
  cases klass.get_element w.factory url with
  | none =>
    simp [FactoryWorld.log, get_element_count_append, cache_calls_append,
      get_element_count, cache_calls]
  | some element =>
    simp only
    cases gst_rtsp_media_factory_collect_streams element <;>
      simp [FactoryWorld.log, get_element_count_append, cache_calls_append,
        get_element_count, cache_calls]

theorem construct_build_ok (klass : GstRTSPMediaFactoryClass)
    (w : FactoryWorld) (url : GstRTSPUrl) (media : GstRTSPMedia)
    (h : (construct_build klass w url).1 = Except.ok media) :
    media.id = w.next_media ∧
    (construct_build klass w url).2.next_media = w.next_media + 1 ∧
    ∃ element s ss, klass.get_element w.factory url = some element ∧
      gst_rtsp_media_factory_collect_streams element = s :: ss := by
  unfold construct_build at h ⊢
  cases hg : klass.get_element w.factory url with
  | none => simp [hg] at h
  | some element =>
    simp only [hg] at h ⊢
    cases hc : gst_rtsp_media_factory_collect_streams element with
    | nil => simp [hc] at h
    | cons s ss =>
      simp only [hc, Except.ok.injEq] at h ⊢
      subst h
      exact ⟨rfl, rfl, element, s, ss, rfl, hc⟩

theorem construct_build_succeeds (klass : GstRTSPMediaFactoryClass)
    (w : FactoryWorld) (url : GstRTSPUrl) (element : GstElement) (s : Nat)
    (ss : List Nat) (hg : klass.get_element w.factory url = some element)
    (hc : gst_rtsp_media_factory_collect_streams element = s :: ss) :
    ∃ media, (construct_build klass w url).1 = Except.ok media := by
  unfold construct_build
  simp only [hg, hc]
  exact ⟨_, rfl⟩

theorem construct_build_fails (klass : GstRTSPMediaFactoryClass)
    (w : FactoryWorld) (url : GstRTSPUrl)
    (hfail : klass.get_element w.factory url = none ∨
      ∃ element, klass.get_element w.factory url = some element ∧
        gst_rtsp_media_factory_collect_streams element = []) :
    (construct_build klass w url).1 =
      Except.error FactoryError.ConstructError := by
  unfold construct_build
  rcases hfail with hg | ⟨element, hg, hc⟩
  · simp only [hg]
  · simp only [hg, hc]

/-- Without sharing, `construct` is the key derivation followed by the build
stages. -/
theorem construct_not_shared (klass : GstRTSPMediaFactoryClass)
    (w : FactoryWorld) (url : GstRTSPUrl) (hshared : w.factory.shared = false) :
    gst_rtsp_media_factory_construct klass w url =
      construct_build klass (w.log [FactoryCall.gen_key url]) url := by
  have hf := construct_build_factory klass (w.log [FactoryCall.gen_key url]) url
  unfold gst_rtsp_media_factory_construct
  have h0 : (w.log [FactoryCall.gen_key url]).factory.shared = false := hshared
  simp only [h0, Bool.false_eq_true, if_false]
  rcases hb : construct_build klass (w.log [FactoryCall.gen_key url]) url with
    ⟨r, w2⟩
  rw [hb] at hf
  simp only at hf
  cases r with
  | error e => rfl
  | ok media =>
    have h2 : w2.factory.shared = false := by rw [hf]; exact hshared
    simp only [h2, Bool.false_eq_true, if_false]

/-- With sharing and the key in the cache, `construct` returns the cached
media and runs no build stage. -/
theorem construct_shared_hit (klass : GstRTSPMediaFactoryClass)
    (w : FactoryWorld) (url : GstRTSPUrl) (media : GstRTSPMedia)
    (hshared : w.factory.shared = true)
    (hhit : cache_lookup w.factory.medias (klass.gen_key w.factory url) =
      some media) :
    gst_rtsp_media_factory_construct klass w url =
      (Except.ok media,
       { factory := w.factory, next_media := w.next_media,
         calls := w.calls ++ [FactoryCall.gen_key url] ++
           [FactoryCall.cache_lookup (klass.gen_key w.factory url),
            FactoryCall.media_ref media.id] }) := by
  unfold gst_rtsp_media_factory_construct
  have h0 : (w.log [FactoryCall.gen_key url]).factory.shared = true := hshared
  have h1 : cache_lookup (w.log [FactoryCall.gen_key url]).factory.medias
      (klass.gen_key w.factory url) = some media := hhit
  simp only [h0, if_true, construct_lookup, h1]
  rfl

/-- With sharing and the key not in the cache, `construct` runs the build
stages; a failure is returned as it is, and a media that was built is
inserted under the key and returned. -/
theorem construct_shared_miss (klass : GstRTSPMediaFactoryClass)
    (w : FactoryWorld) (url : GstRTSPUrl)
    (hshared : w.factory.shared = true)
    (hmiss : cache_lookup w.factory.medias (klass.gen_key w.factory url) =
      none) :
    (∀ e, (construct_build klass
        ((w.log [FactoryCall.gen_key url]).log
          [FactoryCall.cache_lookup (klass.gen_key w.factory url)]) url).1 =
          Except.error e →
      gst_rtsp_media_factory_construct klass w url =
        (Except.error e,
         (construct_build klass
          ((w.log [FactoryCall.gen_key url]).log
            [FactoryCall.cache_lookup (klass.gen_key w.factory url)]) url).2)) ∧
    (∀ media, (construct_build klass
        ((w.log [FactoryCall.gen_key url]).log
          [FactoryCall.cache_lookup (klass.gen_key w.factory url)]) url).1 =
          Except.ok media →
      gst_rtsp_media_factory_construct klass w url =
        (Except.ok media,
         { factory :=
             { w.factory with
               medias := (klass.gen_key w.factory url, media) ::
                 w.factory.medias },
           next_media := (construct_build klass
             ((w.log [FactoryCall.gen_key url]).log
               [FactoryCall.cache_lookup (klass.gen_key w.factory url)])
             url).2.next_media,
           calls := (construct_build klass
             ((w.log [FactoryCall.gen_key url]).log
               [FactoryCall.cache_lookup (klass.gen_key w.factory url)])
             url).2.calls ++
             [FactoryCall.cache_insert (klass.gen_key w.factory url)
               media.id] })) := by
  have hf := construct_build_factory klass
    ((w.log [FactoryCall.gen_key url]).log
      [FactoryCall.cache_lookup (klass.gen_key w.factory url)]) url
  unfold gst_rtsp_media_factory_construct
  have h0 : (w.log [FactoryCall.gen_key url]).factory.shared = true := hshared
  have h1 : cache_lookup (w.log [FactoryCall.gen_key url]).factory.medias
      (klass.gen_key w.factory url) = none := hmiss
  simp only [h0, if_true, construct_lookup, h1]
  rcases hb : construct_build klass
    ((w.log [FactoryCall.gen_key url]).log
      [FactoryCall.cache_lookup (klass.gen_key w.factory url)]) url with
    ⟨r, w2⟩
  rw [hb] at hf
  simp only at hf
  have hf2 : w2.factory = w.factory := hf
  refine ⟨?_, ?_⟩
  · intro e he
    simp only at he
    subst he
    rfl
  · intro media hm
    simp only at hm
    subst hm
    simp only [construct_insert, hf2, hshared, hmiss, if_true]

theorem cache_lookup_head (medias : List (String × GstRTSPMedia))
    (key : String) (media : GstRTSPMedia) :
    cache_lookup ((key, media) :: medias) key = some media := by
  simp [cache_lookup]

/-! ## C14: a shared factory builds once -/

/-- C14: for a factory with `shared` set, when a `construct (url)` call returns
a media and the next `construct (url)` call derives the same key (the cached
media has not been removed in between), the second call returns the same
media instance, leaves the cache as it is and runs no `getElement`; when the
key was not cached before the first call, `getElement` ran exactly once in the
first call, hence exactly once in total. -/
theorem C14_shared_construct_twice (klass : GstRTSPMediaFactoryClass)
    (w : FactoryWorld) (url : GstRTSPUrl) (media : GstRTSPMedia)
    (hshared : w.factory.shared = true)
    (hfirst : (gst_rtsp_media_factory_construct klass w url).1 =
      Except.ok media)
    (hkey : klass.gen_key
        (gst_rtsp_media_factory_construct klass w url).2.factory url =
      klass.gen_key w.factory url) :
    (gst_rtsp_media_factory_construct klass
      (gst_rtsp_media_factory_construct klass w url).2 url).1 =
        Except.ok media ∧
    (gst_rtsp_media_factory_construct klass
      (gst_rtsp_media_factory_construct klass w url).2 url).2.factory =
        (gst_rtsp_media_factory_construct klass w url).2.factory ∧
    get_element_count (gst_rtsp_media_factory_construct klass
      (gst_rtsp_media_factory_construct klass w url).2 url).2.calls =
        get_element_count
          (gst_rtsp_media_factory_construct klass w url).2.calls ∧
    (cache_lookup w.factory.medias (klass.gen_key w.factory url) = none →
      get_element_count
          (gst_rtsp_media_factory_construct klass w url).2.calls =
        get_element_count w.calls + 1 ∧
      get_element_count (gst_rtsp_media_factory_construct klass
        (gst_rtsp_media_factory_construct klass w url).2 url).2.calls =
          get_element_count w.calls + 1) := by
  -- after the first call the key is cached with the returned media
  have hafter :
      (gst_rtsp_media_factory_construct klass w url).2.factory.shared = true ∧
      cache_lookup (gst_rtsp_media_factory_construct klass w url).2.factory.medias
        (klass.gen_key w.factory url) = some media ∧
      (cache_lookup w.factory.medias (klass.gen_key w.factory url) = none →
        get_element_count
            (gst_rtsp_media_factory_construct klass w url).2.calls =
          get_element_count w.calls + 1) := by
    cases hl : cache_lookup w.factory.medias (klass.gen_key w.factory url) with
    | some m =>
      have h := construct_shared_hit klass w url m hshared hl
      rw [h] at hfirst
      simp only [Except.ok.injEq] at hfirst
      subst hfirst
      rw [h]
      exact ⟨hshared, hl, fun hn => by cases hn⟩
    | none =>
      obtain ⟨herr, hok⟩ := construct_shared_miss klass w url hshared hl
      have hc := construct_build_calls klass
        ((w.log [FactoryCall.gen_key url]).log
          [FactoryCall.cache_lookup (klass.gen_key w.factory url)]) url
      cases hb : (construct_build klass
        ((w.log [FactoryCall.gen_key url]).log
          [FactoryCall.cache_lookup (klass.gen_key w.factory url)]) url).1 with
      | error e =>
        rw [herr e hb] at hfirst
        cases hfirst
      | ok m =>
        have h := hok m hb
        rw [h] at hfirst
        simp only [Except.ok.injEq] at hfirst
        subst hfirst
        rw [h]
        refine ⟨hshared, cache_lookup_head _ _ _, fun _ => ?_⟩
        simp only
        rw [get_element_count_append, hc.1]
        simp [FactoryWorld.log, get_element_count_append, get_element_count]
  obtain ⟨hs1, hl1, hcount⟩ := hafter
  have hl2 : cache_lookup
      (gst_rtsp_media_factory_construct klass w url).2.factory.medias
      (klass.gen_key (gst_rtsp_media_factory_construct klass w url).2.factory
        url) = some media := by
    rw [hkey]; exact hl1
  have h2 := construct_shared_hit klass
    (gst_rtsp_media_factory_construct klass w url).2 url media hs1 hl2
  have hsame : get_element_count (gst_rtsp_media_factory_construct klass
      (gst_rtsp_media_factory_construct klass w url).2 url).2.calls =
        get_element_count
          (gst_rtsp_media_factory_construct klass w url).2.calls := by
    rw [h2]
    simp [get_element_count_append, get_element_count]
  refine ⟨by rw [h2], by rw [h2], hsame, ?_⟩
  intro hn
  exact ⟨hcount hn, by rw [hsame]; exact hcount hn⟩

/-- Witness of C14: two constructs of rtsp://h/test?a=1 on a shared factory
with an empty cache. -/
theorem C14_witness :
    result_media (gst_rtsp_media_factory_construct example_factory_klass
      (gst_rtsp_media_factory_construct example_factory_klass
        example_factory_world_shared example_url1).2 example_url1).1 =
      result_media (gst_rtsp_media_factory_construct example_factory_klass
        example_factory_world_shared example_url1).1 ∧
    get_element_count (gst_rtsp_media_factory_construct example_factory_klass
      (gst_rtsp_media_factory_construct example_factory_klass
        example_factory_world_shared example_url1).2 example_url1).2.calls =
      1 :=
  have h := C14_shared_construct_twice example_factory_klass
    example_factory_world_shared example_url1 _ rfl rfl rfl
  ⟨congrArg result_media h.1, (h.2.2.2 rfl).2⟩

/-! ## C15: a factory that is not shared never touches the cache -/

/-- C15: for a factory with `shared` not set, when a `construct (url)` call
returns a media, the next `construct (url)` call returns a media too, a
different instance; each of the two calls runs `getElement` exactly once;
neither call looks the cache up or inserts into it, and the cache after each
call is the cache before it, so a cache that is empty stays empty. -/
theorem C15_not_shared_construct_twice (klass : GstRTSPMediaFactoryClass)
    (w : FactoryWorld) (url : GstRTSPUrl) (media1 : GstRTSPMedia)
    (hshared : w.factory.shared = false)
    (hfirst : (gst_rtsp_media_factory_construct klass w url).1 =
      Except.ok media1) :
    ∃ media2,
      (gst_rtsp_media_factory_construct klass
        (gst_rtsp_media_factory_construct klass w url).2 url).1 =
          Except.ok media2 ∧
      media2.id ≠ media1.id ∧
      get_element_count
          (gst_rtsp_media_factory_construct klass w url).2.calls =
        get_element_count w.calls + 1 ∧
      get_element_count (gst_rtsp_media_factory_construct klass
        (gst_rtsp_media_factory_construct klass w url).2 url).2.calls =
          get_element_count w.calls + 2 ∧
      cache_calls (gst_rtsp_media_factory_construct klass w url).2.calls =
        cache_calls w.calls ∧
      cache_calls (gst_rtsp_media_factory_construct klass
        (gst_rtsp_media_factory_construct klass w url).2 url).2.calls =
          cache_calls w.calls ∧
      (gst_rtsp_media_factory_construct klass w url).2.factory.medias =
        w.factory.medias ∧
      (gst_rtsp_media_factory_construct klass
        (gst_rtsp_media_factory_construct klass w url).2 url).2.factory.medias =
          w.factory.medias ∧
      (w.factory.medias = [] →
        (gst_rtsp_media_factory_construct klass w url).2.factory.medias = [] ∧
        (gst_rtsp_media_factory_construct klass
          (gst_rtsp_media_factory_construct klass w url).2
          url).2.factory.medias = []) := by
  have h1 := construct_not_shared klass w url hshared
  have hf1 : (gst_rtsp_media_factory_construct klass w url).2.factory =
      w.factory := by
    rw [h1, construct_build_factory]; rfl
  have hs2 : (gst_rtsp_media_factory_construct klass w url).2.factory.shared =
      false := by rw [hf1]; exact hshared
  have h2 := construct_not_shared klass
    (gst_rtsp_media_factory_construct klass w url).2 url hs2
  have hf2 : (gst_rtsp_media_factory_construct klass
      (gst_rtsp_media_factory_construct klass w url).2 url).2.factory =
      w.factory := by
    rw [h2, construct_build_factory]; exact hf1
  -- the first build
  have hb1 : (construct_build klass (w.log [FactoryCall.gen_key url]) url).1 =
      Except.ok media1 := by rw [← h1]; exact hfirst
  obtain ⟨hid1, hnext1, element, s, ss, hg, hc⟩ :=
    construct_build_ok klass _ url media1 hb1
  have hc1 := construct_build_calls klass (w.log [FactoryCall.gen_key url]) url
  -- the second build sees the same factory
  have hg2 : klass.get_element
      (((gst_rtsp_media_factory_construct klass w url).2).log
        [FactoryCall.gen_key url]).factory url = some element := by
    show klass.get_element
      (gst_rtsp_media_factory_construct klass w url).2.factory url = _
    rw [hf1]; exact hg
  obtain ⟨media2, hb2⟩ := construct_build_succeeds klass _ url element s ss
    hg2 hc
  obtain ⟨hid2, _, _⟩ := construct_build_ok klass _ url media2 hb2
  have hc2 := construct_build_calls klass
    (((gst_rtsp_media_factory_construct klass w url).2).log
      [FactoryCall.gen_key url]) url
  have hcount1 : get_element_count
      (gst_rtsp_media_factory_construct klass w url).2.calls =
        get_element_count w.calls + 1 := by
    rw [h1, hc1.1]
    simp [FactoryWorld.log, get_element_count_append, get_element_count]
  have hcache1 : cache_calls
      (gst_rtsp_media_factory_construct klass w url).2.calls =
        cache_calls w.calls := by
    rw [h1, hc1.2]
    simp [FactoryWorld.log, cache_calls_append, cache_calls]
  refine ⟨media2, by rw [h2]; exact hb2, ?_, hcount1, ?_, hcache1, ?_,
    congrArg GstRTSPMediaFactory.medias hf1,
    congrArg GstRTSPMediaFactory.medias hf2, ?_⟩
  · rw [hid2, hid1]
    show (gst_rtsp_media_factory_construct klass w url).2.next_media ≠
      w.next_media
    rw [h1, hnext1]
    show w.next_media + 1 ≠ w.next_media
    omega
  · rw [h2, hc2.1]
    show get_element_count
      ((gst_rtsp_media_factory_construct klass w url).2.calls ++
        [FactoryCall.gen_key url]) + 1 = _
    rw [get_element_count_append, hcount1]
    simp [get_element_count]
  · rw [h2, hc2.2]
    show cache_calls
      ((gst_rtsp_media_factory_construct klass w url).2.calls ++
        [FactoryCall.gen_key url]) = _
    rw [cache_calls_append, hcache1]
    simp [cache_calls]
  · intro hempty
    exact ⟨by rw [hf1]; exact hempty, by rw [hf2]; exact hempty⟩

/-- Witness of C15: two constructs on a new factory that is not shared give
the instances 0 and 1 and leave the cache empty. -/
theorem C15_witness :
    ∃ media2,
      (gst_rtsp_media_factory_construct example_factory_klass
        (gst_rtsp_media_factory_construct example_factory_klass
          example_factory_world example_url1).2 example_url1).1 =
          Except.ok media2 ∧
      media2.id ≠ 0 ∧
      (gst_rtsp_media_factory_construct example_factory_klass
        (gst_rtsp_media_factory_construct example_factory_klass
          example_factory_world example_url1).2
        example_url1).2.factory.medias = [] :=
  have h := C15_not_shared_construct_twice example_factory_klass
    example_factory_world example_url1
    { id := 0, element := { payloaders := [0, 1] }, streams := [0, 1],
      pipeline := 0,
      settings := { shared := false, eos_shutdown := false,
                    buffer_size := 524288, multicast_group := "224.2.0.1" } }
    rfl rfl
  Exists.elim h fun media2 hm =>
    ⟨media2, hm.1, hm.2.1, (hm.2.2.2.2.2.2.2.2 rfl).2⟩

/-! ## C16: the default key -/

theorem string_append_cancel_left (a b c : String) (h : a ++ b = a ++ c) :
    b = c := by
  have hd := congrArg String.data h
  simp only [String.data_append] at hd
  exact String.ext (List.append_cancel_left hd)

/-- C16: the default `genKey` gives different keys to two URLs that differ
only in their query string (a missing query and an empty one count as
different), equal keys to equal URLs, and different keys to
rtsp://h/test?a=1 and rtsp://h/test?a=2. -/
theorem C16_default_gen_key_includes_query
    (factory1 factory2 : GstRTSPMediaFactory) (url1 url2 : GstRTSPUrl) :
    (url1.host = url2.host → url1.port = url2.port →
      url1.abspath = url2.abspath → url1.query ≠ url2.query →
      default_gen_key factory1 url1 ≠ default_gen_key factory2 url2) ∧
    (url1 = url2 → default_gen_key factory1 url1 = default_gen_key factory2 url2) ∧
    default_gen_key factory1 example_url1 ≠
      default_gen_key factory2 example_url2 := by
  have hdiff : ∀ u1 u2 : GstRTSPUrl, u1.host = u2.host → u1.port = u2.port →
      u1.abspath = u2.abspath → u1.query ≠ u2.query →
      default_gen_key factory1 u1 ≠ default_gen_key factory2 u2 := by
    intro u1 u2 hh hp ha hq hkeys
    apply hq
    unfold default_gen_key at hkeys
    rw [hh, hp, ha] at hkeys
    have hs := string_append_cancel_left _ _ _ hkeys
    cases h1 : u1.query with
    | none =>
      cases h2 : u2.query with
      | none => rfl
      | some q2 =>
        rw [h1, h2] at hs
        have hd := congrArg String.data hs
        simp at hd
    | some q1 =>
      cases h2 : u2.query with
      | none =>
        rw [h1, h2] at hs
        have hd := congrArg String.data hs
        simp at hd
      | some q2 =>
        rw [h1, h2] at hs
        rw [string_append_cancel_left _ _ _ hs]
  refine ⟨hdiff url1 url2, ?_, ?_⟩
  · intro h
    subst h
    rfl
  · exact hdiff example_url1 example_url2 rfl rfl rfl (by decide)

/-- Witness of C16: rtsp://h/test?a=1 and rtsp://h/test?a=2. -/
theorem C16_witness :
    default_gen_key gst_rtsp_media_factory_new example_url1 ≠
      default_gen_key gst_rtsp_media_factory_new example_url2 ∧
    default_gen_key gst_rtsp_media_factory_new example_url1 =
      "rtsp://h:554/test?a=1" :=
  ⟨(C16_default_gen_key_includes_query gst_rtsp_media_factory_new
      gst_rtsp_media_factory_new example_url1 example_url2).1
      rfl rfl rfl (by decide),
   by decide⟩

/-! ## C17: a failed construction leaves the cache alone -/

theorem insert_calls_append (a b : List FactoryCall) :
    insert_calls (a ++ b) = insert_calls a ++ insert_calls b := by
  simp [insert_calls, List.filter_append]

theorem construct_build_inserts (klass : GstRTSPMediaFactoryClass)
    (w : FactoryWorld) (url : GstRTSPUrl) :
    insert_calls (construct_build klass w url).2.calls = insert_calls w.calls := by
  unfold construct_build
  cases klass.get_element w.factory url with
  | none =>
    simp [FactoryWorld.log, insert_calls_append, insert_calls]
  | some element =>
    simp only
    cases gst_rtsp_media_factory_collect_streams element <;>
      simp [FactoryWorld.log, insert_calls_append, insert_calls]

/-- C17: when the build stages are run, the factory is not shared or the key
is not cached, and `getElement` fails or `collectStreams` finds no stream,
`construct` fails with `ConstructError` and leaves the factory, its cache
included, exactly as it was, without any insertion into the cache; and
whenever `construct` fails at all, the factory is exactly as it was. -/
theorem C17_failed_construct_keeps_cache (klass : GstRTSPMediaFactoryClass)
    (w : FactoryWorld) (url : GstRTSPUrl) :
    ((w.factory.shared = false ∨
        cache_lookup w.factory.medias (klass.gen_key w.factory url) = none) →
      (klass.get_element w.factory url = none ∨
        ∃ element, klass.get_element w.factory url = some element ∧
          gst_rtsp_media_factory_collect_streams element = []) →
      (gst_rtsp_media_factory_construct klass w url).1 =
        Except.error FactoryError.ConstructError ∧
      (gst_rtsp_media_factory_construct klass w url).2.factory = w.factory ∧
      (gst_rtsp_media_factory_construct klass w url).2.factory.medias =
        w.factory.medias ∧
      insert_calls (gst_rtsp_media_factory_construct klass w url).2.calls =
        insert_calls w.calls) ∧
    (∀ e, (gst_rtsp_media_factory_construct klass w url).1 = Except.error e →
      e = FactoryError.ConstructError ∧
      (gst_rtsp_media_factory_construct klass w url).2.factory = w.factory) := by
  -- a failing construct never changes the factory
  have hgen : ∀ e,
      (gst_rtsp_media_factory_construct klass w url).1 = Except.error e →
      e = FactoryError.ConstructError ∧
      (gst_rtsp_media_factory_construct klass w url).2.factory = w.factory := by
    intro e he
    refine ⟨by cases e; rfl, ?_⟩
    cases hs : w.factory.shared with
    | false =>
      rw [construct_not_shared klass w url hs, construct_build_factory]
      rfl
    | true =>
      cases hl : cache_lookup w.factory.medias (klass.gen_key w.factory url) with
      | some m =>
        rw [construct_shared_hit klass w url m hs hl] at he
        cases he
      | none =>
        obtain ⟨herr, hok⟩ := construct_shared_miss klass w url hs hl
        cases hb : (construct_build klass
          ((w.log [FactoryCall.gen_key url]).log
            [FactoryCall.cache_lookup (klass.gen_key w.factory url)]) url).1 with
        | error e1 =>
          rw [herr e1 hb, construct_build_factory]
          rfl
        | ok m =>
          rw [hok m hb] at he
          cases he
  refine ⟨?_, hgen⟩
  intro hrun hfail
  have hres : (gst_rtsp_media_factory_construct klass w url).1 =
      Except.error FactoryError.ConstructError := by
    cases hs : w.factory.shared with
    | false =>
      rw [construct_not_shared klass w url hs]
      exact construct_build_fails klass _ url hfail
    | true =>
      have hl : cache_lookup w.factory.medias (klass.gen_key w.factory url) =
          none := by
        rcases hrun with h | h
        · rw [hs] at h; cases h
        · exact h
      obtain ⟨herr, _⟩ := construct_shared_miss klass w url hs hl
      have hb := construct_build_fails klass
        ((w.log [FactoryCall.gen_key url]).log
          [FactoryCall.cache_lookup (klass.gen_key w.factory url)]) url hfail
      rw [herr _ hb]
  obtain ⟨_, hf⟩ := hgen _ hres
  refine ⟨hres, hf, congrArg GstRTSPMediaFactory.medias hf, ?_⟩
  cases hs : w.factory.shared with
  | false =>
    rw [construct_not_shared klass w url hs, construct_build_inserts]
    simp [FactoryWorld.log, insert_calls_append, insert_calls]
  | true =>
    have hl : cache_lookup w.factory.medias (klass.gen_key w.factory url) =
        none := by
      rcases hrun with h | h
      · rw [hs] at h; cases h
      · exact h
    obtain ⟨herr, _⟩ := construct_shared_miss klass w url hs hl
    have hb := construct_build_fails klass
      ((w.log [FactoryCall.gen_key url]).log
        [FactoryCall.cache_lookup (klass.gen_key w.factory url)]) url hfail
    rw [herr _ hb, construct_build_inserts]
    simp [FactoryWorld.log, insert_calls_append, insert_calls]

/-- Witness of C17: the pipeline specification has no `pay0`, so
`collectStreams` finds nothing. -/
theorem C17_witness :
    (gst_rtsp_media_factory_construct example_factory_klass
      example_factory_world_nopay example_url1).1 =
        Except.error FactoryError.ConstructError ∧
    (gst_rtsp_media_factory_construct example_factory_klass
      example_factory_world_nopay example_url1).2.factory.medias = [] :=
  have h := (C17_failed_construct_keeps_cache example_factory_klass
    example_factory_world_nopay example_url1).1 (Or.inr rfl)
    (Or.inr ⟨{ payloaders := [1] }, rfl, rfl⟩)
  ⟨h.1, h.2.2.1⟩

/-! ## C18: two callers racing for one key -/

theorem cache_lookup_eq_none (medias : List (String × GstRTSPMedia))
    (key : String) :
    cache_lookup medias key = none ↔ key ∉ medias.map Prod.fst := by
  induction medias with
  | nil => simp [cache_lookup]
  | cons e rest ih =>
    obtain ⟨k, m⟩ := e
    by_cases hk : k = key
    · simp [cache_lookup, hk]
    · simp only [cache_lookup, hk, if_false, List.map_cons, List.mem_cons, ih]
      constructor
      · intro h hc
        rcases hc with hc | hc
        · exact hk hc.symm
        · exact h hc
      · intro h hc
        exact h (Or.inr hc)

theorem cache_lookup_mem (medias : List (String × GstRTSPMedia))
    (key : String) (media : GstRTSPMedia)
    (h : cache_lookup medias key = some media) : (key, media) ∈ medias := by
  induction medias with
  | nil => simp [cache_lookup] at h
  | cons e rest ih =>
    obtain ⟨k, m⟩ := e
    by_cases hk : k = key
    · simp only [cache_lookup, hk, if_true, Option.some.injEq] at h
      subst hk
      subst h
      exact List.mem_cons_self _ _
    · simp only [cache_lookup, hk, if_false] at h
      exact List.mem_cons_of_mem _ (ih h)

theorem keys_unique_mem (medias : List (String × GstRTSPMedia))
    (hu : keys_unique medias) (key : String) (m1 m2 : GstRTSPMedia)
    (h1 : (key, m1) ∈ medias) (h2 : (key, m2) ∈ medias) : m1 = m2 := by
  induction medias with
  | nil => cases h1
  | cons e rest ih =>
    obtain ⟨k, m⟩ := e
    unfold keys_unique at hu ih
    simp only [List.map_cons, List.nodup_cons] at hu
    obtain ⟨hnot, hrest⟩ := hu
    have hkey : ∀ x, (key, x) ∈ rest → key ∈ rest.map Prod.fst := by
      intro x hx
      exact List.mem_map.mpr ⟨(key, x), hx, rfl⟩
    rcases List.mem_cons.mp h1 with e1 | r1
    · rcases List.mem_cons.mp h2 with e2 | r2
      · cases e1; cases e2; rfl
      · cases e1
        exact absurd (hkey m2 r2) hnot
    · rcases List.mem_cons.mp h2 with e2 | r2
      · cases e2
        exact absurd (hkey m1 r1) hnot
      · exact ih hrest r1 r2

theorem phase_ok_insert (key : String) (medias : List (String × GstRTSPMedia))
    (media : GstRTSPMedia) (hmiss : cache_lookup medias key = none)
    (q : ConstructPhase) (hq : phase_ok key medias q) :
    phase_ok key ((key, media) :: medias) q := by
  cases q with
  | start => trivial
  | missed k => exact hq
  | built k m => exact hq
  | done result =>
    cases result with
    | error e => trivial
    | ok m =>
      have hq1 : cache_lookup medias key = some m := hq
      rw [hmiss] at hq1
      cases hq1

/-- One step of a caller keeps the invariant: the factory stays shared, the
cache keeps one entry per key, the stepping caller and the other caller `q`
stay consistent with the cache. -/
theorem construct_step_inv (klass : GstRTSPMediaFactoryClass)
    (url : GstRTSPUrl) (key : String)
    (hkey : ∀ f, klass.gen_key f url = key) (w : FactoryWorld)
    (p q : ConstructPhase) (hs : w.factory.shared = true)
    (hu : keys_unique w.factory.medias)
    (hp : phase_ok key w.factory.medias p)
    (hq : phase_ok key w.factory.medias q) :
    (construct_step klass url w p).2.factory.shared = true ∧
    keys_unique (construct_step klass url w p).2.factory.medias ∧
    phase_ok key (construct_step klass url w p).2.factory.medias
      (construct_step klass url w p).1 ∧
    phase_ok key (construct_step klass url w p).2.factory.medias q := by
  cases p with
  | start =>
    have h0 : (w.log [FactoryCall.gen_key url]).factory.shared = true := hs
    cases hl : cache_lookup w.factory.medias key with
    | some m =>
      have h1 : cache_lookup (w.log [FactoryCall.gen_key url]).factory.medias
          key = some m := hl
      simp only [construct_step, hkey, h0, if_true, construct_lookup, h1]
      exact ⟨hs, hu, hl, hq⟩
    | none =>
      have h1 : cache_lookup (w.log [FactoryCall.gen_key url]).factory.medias
          key = none := hl
      simp only [construct_step, hkey, h0, if_true, construct_lookup, h1]
      exact ⟨hs, hu, rfl, hq⟩
  | missed k =>
    have hf := construct_build_factory klass w url
    simp only [construct_step]
    rcases hb : construct_build klass w url with ⟨r, w2⟩
    rw [hb] at hf
    simp only at hf
    cases r with
    | error e =>
      simp only
      rw [hf]
      exact ⟨hs, hu, trivial, hq⟩
    | ok m =>
      simp only
      rw [hf]
      exact ⟨hs, hu, hp, hq⟩
  | built k m =>
    have hk : k = key := hp
    subst hk
    cases hl : cache_lookup w.factory.medias k with
    | some winner =>
      have hstep : construct_step klass url w (ConstructPhase.built k m) =
          (ConstructPhase.done (Except.ok winner),
           w.log [FactoryCall.media_unref m.id,
             FactoryCall.media_ref winner.id]) := by
        simp only [construct_step, hs, if_true, construct_insert, hl]
      rw [hstep]
      exact ⟨hs, hu, hl, hq⟩
    | none =>
      have hstep : construct_step klass url w (ConstructPhase.built k m) =
          (ConstructPhase.done (Except.ok m),
           { w with
             factory := { w.factory with medias := (k, m) :: w.factory.medias },
             calls := w.calls ++ [FactoryCall.cache_insert k m.id] }) := by
        simp only [construct_step, hs, if_true, construct_insert, hl]
      rw [hstep]
      refine ⟨hs, ?_, cache_lookup_head _ _ _, phase_ok_insert k _ m hl q hq⟩
      unfold keys_unique
      simp only [List.map_cons, List.nodup_cons]
      exact ⟨(cache_lookup_eq_none _ _).mp hl, hu⟩
  | done result =>
    simp only [construct_step]
    exact ⟨hs, hu, hp, hq⟩

theorem race_step_inv (klass : GstRTSPMediaFactoryClass) (url : GstRTSPUrl)
    (key : String) (hkey : ∀ f, klass.gen_key f url = key) (r : Race)
    (who : Bool) (h : race_inv key r) :
    race_inv key (race_step klass url r who) := by
  obtain ⟨hs, hu, h1, h2⟩ := h
  cases who with
  | true =>
    obtain ⟨a, b, c, d⟩ :=
      construct_step_inv klass url key hkey r.world r.first r.second hs hu h1 h2
    exact ⟨a, b, c, d⟩
  | false =>
    obtain ⟨a, b, c, d⟩ :=
      construct_step_inv klass url key hkey r.world r.second r.first hs hu h2 h1
    exact ⟨a, b, d, c⟩

theorem race_run_inv (klass : GstRTSPMediaFactoryClass) (url : GstRTSPUrl)
    (key : String) (hkey : ∀ f, klass.gen_key f url = key) :
    ∀ (schedule : List Bool) (r : Race), race_inv key r →
      race_inv key (race_run klass url r schedule) := by
  intro schedule
  induction schedule with
  | nil => intro r h; exact h
  | cons who rest ih =>
    intro r h
    exact ih _ (race_step_inv klass url key hkey r who h)

theorem construct_step_remaining (klass : GstRTSPMediaFactoryClass)
    (url : GstRTSPUrl) (w : FactoryWorld) (p : ConstructPhase) :
    (construct_step klass url w p).1.remaining ≤ p.remaining - 1 := by
  cases p with
  | start =>
    simp only [construct_step]
    split <;> simp [ConstructPhase.remaining]
  | missed k =>
    simp only [construct_step]
    split <;> simp [ConstructPhase.remaining]
  | built k m =>
    simp only [construct_step]
    split <;> simp [ConstructPhase.remaining]
  | done result => simp [construct_step, ConstructPhase.remaining]

theorem race_run_remaining (klass : GstRTSPMediaFactoryClass)
    (url : GstRTSPUrl) :
    ∀ (schedule : List Bool) (r : Race),
      (race_run klass url r schedule).first.remaining ≤
        r.first.remaining - schedule.count true ∧
      (race_run klass url r schedule).second.remaining ≤
        r.second.remaining - schedule.count false := by
  intro schedule
  induction schedule with
  | nil => intro r; simp [race_run]
  | cons who rest ih =>
    intro r
    obtain ⟨h1, h2⟩ := ih (race_step klass url r who)
    have hf := construct_step_remaining klass url r.world r.first
    have hg := construct_step_remaining klass url r.world r.second
    cases who with
    | true =>
      have e1 : (race_step klass url r true).first =
          (construct_step klass url r.world r.first).1 := rfl
      have e2 : (race_step klass url r true).second = r.second := rfl
      rw [e1] at h1
      rw [e2] at h2
      have c1 : (true :: rest).count true = rest.count true + 1 := by simp
      have c2 : (true :: rest).count false = rest.count false := by simp
      rw [c1, c2]
      show (race_run klass url (race_step klass url r true) rest).first.remaining
          ≤ _ ∧
        (race_run klass url (race_step klass url r true) rest).second.remaining
          ≤ _
      exact ⟨by omega, h2⟩
    | false =>
      have e1 : (race_step klass url r false).first = r.first := rfl
      have e2 : (race_step klass url r false).second =
          (construct_step klass url r.world r.second).1 := rfl
      rw [e1] at h1
      rw [e2] at h2
      have c1 : (false :: rest).count true = rest.count true := by simp
      have c2 : (false :: rest).count false = rest.count false + 1 := by simp
      rw [c1, c2]
      show (race_run klass url (race_step klass url r false) rest).first.remaining
          ≤ _ ∧
        (race_run klass url (race_step klass url r false) rest).second.remaining
          ≤ _
      exact ⟨h1, by omega⟩

theorem remaining_eq_zero (p : ConstructPhase) (h : p.remaining = 0) :
    ∃ result, p = ConstructPhase.done result := by
  cases p with
  | done result => exact ⟨result, rfl⟩
  | start => simp [ConstructPhase.remaining] at h
  | missed k => simp [ConstructPhase.remaining] at h
  | built k m => simp [ConstructPhase.remaining] at h

/-- A caller that makes its three steps without another caller in between
does what `gst_rtsp_media_factory_construct` does. -/
theorem construct_step_thrice (klass : GstRTSPMediaFactoryClass)
    (url : GstRTSPUrl) (w : FactoryWorld) :
    construct_step klass url
        (construct_step klass url
          (construct_step klass url w ConstructPhase.start).2
          (construct_step klass url w ConstructPhase.start).1).2
        (construct_step klass url
          (construct_step klass url w ConstructPhase.start).2
          (construct_step klass url w ConstructPhase.start).1).1 =
      (ConstructPhase.done (gst_rtsp_media_factory_construct klass w url).1,
       (gst_rtsp_media_factory_construct klass w url).2) := by
  cases hs : w.factory.shared with
  | false =>
    have h0 : (w.log [FactoryCall.gen_key url]).factory.shared = false := hs
    have h1 : construct_step klass url w ConstructPhase.start =
        (ConstructPhase.missed (klass.gen_key w.factory url),
         w.log [FactoryCall.gen_key url]) := by
      simp only [construct_step, h0, Bool.false_eq_true, if_false]
    rw [h1, construct_not_shared klass w url hs]
    have hf := construct_build_factory klass (w.log [FactoryCall.gen_key url])
      url
    simp only [construct_step]
    rcases hb : construct_build klass (w.log [FactoryCall.gen_key url]) url
      with ⟨r, w2⟩
    rw [hb] at hf
    simp only at hf
    cases r with
    | error e => rfl
    | ok m =>
      have h2 : w2.factory.shared = false := by rw [hf]; exact hs
      simp only [construct_step, h2, Bool.false_eq_true, if_false]
  | true =>
    have h0 : (w.log [FactoryCall.gen_key url]).factory.shared = true := hs
    cases hl : cache_lookup w.factory.medias (klass.gen_key w.factory url) with
    | some m =>
      have hl0 : cache_lookup (w.log [FactoryCall.gen_key url]).factory.medias
          (klass.gen_key w.factory url) = some m := hl
      have h1 : construct_step klass url w ConstructPhase.start =
          (ConstructPhase.done (Except.ok m),
           (w.log [FactoryCall.gen_key url]).log
             [FactoryCall.cache_lookup (klass.gen_key w.factory url),
              FactoryCall.media_ref m.id]) := by
        simp only [construct_step, h0, if_true, construct_lookup, hl0]
      rw [h1, construct_shared_hit klass w url m hs hl]
      rfl
    | none =>
      have hl0 : cache_lookup (w.log [FactoryCall.gen_key url]).factory.medias
          (klass.gen_key w.factory url) = none := hl
      have h1 : construct_step klass url w ConstructPhase.start =
          (ConstructPhase.missed (klass.gen_key w.factory url),
           (w.log [FactoryCall.gen_key url]).log
             [FactoryCall.cache_lookup (klass.gen_key w.factory url)]) := by
        simp only [construct_step, h0, if_true, construct_lookup, hl0]
      obtain ⟨herr, hok⟩ := construct_shared_miss klass w url hs hl
      have hf := construct_build_factory klass
        ((w.log [FactoryCall.gen_key url]).log
          [FactoryCall.cache_lookup (klass.gen_key w.factory url)]) url
      rw [h1]
      simp only [construct_step]
      rcases hb : construct_build klass
        ((w.log [FactoryCall.gen_key url]).log
          [FactoryCall.cache_lookup (klass.gen_key w.factory url)]) url
        with ⟨r, w2⟩
      rw [hb] at hf herr hok
      simp only at hf herr hok
      have hf2 : w2.factory = w.factory := hf
      cases r with
      | error e =>
        rw [herr e rfl]
      | ok m =>
        rw [hok m rfl]
        simp only [construct_step, construct_insert, hf2, hs, hl, if_true]

/-- C18: two callers of `construct` for a url whose key is `key`, on a shared
factory whose cache holds one entry per key, stepping in any order (the
schedule): after every schedule the cache holds at most one media under `key`;
two media the callers have returned are the same instance, the one cached under
`key`; once each caller has made three steps both have returned; and the
insertion step, when an entry for the key is already present, returns that
entry and leaves the cache as it is, the media just built being discarded. -/
theorem C18_racing_constructs_return_one_media
    (klass : GstRTSPMediaFactoryClass) (url : GstRTSPUrl) (key : String)
    (w : FactoryWorld) (schedule : List Bool)
    (hkey : ∀ f, klass.gen_key f url = key)
    (hshared : w.factory.shared = true)
    (hunique : keys_unique w.factory.medias) :
    (∀ m1 m2,
      (key, m1) ∈ (race_run klass url
        { world := w, first := ConstructPhase.start,
          second := ConstructPhase.start } schedule).world.factory.medias →
      (key, m2) ∈ (race_run klass url
        { world := w, first := ConstructPhase.start,
          second := ConstructPhase.start } schedule).world.factory.medias →
      m1 = m2) ∧
    (∀ m1 m2,
      (race_run klass url
        { world := w, first := ConstructPhase.start,
          second := ConstructPhase.start } schedule).first =
        ConstructPhase.done (Except.ok m1) →
      (race_run klass url
        { world := w, first := ConstructPhase.start,
          second := ConstructPhase.start } schedule).second =
        ConstructPhase.done (Except.ok m2) →
      m1 = m2 ∧
      cache_lookup (race_run klass url
        { world := w, first := ConstructPhase.start,
          second := ConstructPhase.start } schedule).world.factory.medias key =
        some m1) ∧
    (3 ≤ schedule.count true → 3 ≤ schedule.count false →
      ∃ r1 r2,
        (race_run klass url
          { world := w, first := ConstructPhase.start,
            second := ConstructPhase.start } schedule).first =
          ConstructPhase.done r1 ∧
        (race_run klass url
          { world := w, first := ConstructPhase.start,
            second := ConstructPhase.start } schedule).second =
          ConstructPhase.done r2) ∧
    (∀ (w1 : FactoryWorld) (media winner : GstRTSPMedia),
      cache_lookup w1.factory.medias key = some winner →
      (construct_insert w1 key media).1 = winner ∧
      (construct_insert w1 key media).2.factory = w1.factory) := by
  have hinv := race_run_inv klass url key hkey schedule
    { world := w, first := ConstructPhase.start,
      second := ConstructPhase.start } ⟨hshared, hunique, trivial, trivial⟩
  obtain ⟨_, hu, h1, h2⟩ := hinv
  refine ⟨?_, ?_, ?_, ?_⟩
  · intro m1 m2 hm1 hm2
    exact keys_unique_mem _ hu key m1 m2 hm1 hm2
  · intro m1 m2 hf hs
    rw [hf] at h1
    rw [hs] at h2
    have e1 : cache_lookup _ key = some m1 := h1
    have e2 : cache_lookup _ key = some m2 := h2
    rw [e1] at e2
    exact ⟨Option.some.inj e2, e1⟩
  · intro ht hf
    obtain ⟨r1, r2⟩ := race_run_remaining klass url schedule
      { world := w, first := ConstructPhase.start,
        second := ConstructPhase.start }
    have z1 : (race_run klass url
        { world := w, first := ConstructPhase.start,
          second := ConstructPhase.start } schedule).first.remaining = 0 := by
      have r1b : (race_run klass url
          { world := w, first := ConstructPhase.start,
            second := ConstructPhase.start } schedule).first.remaining ≤
          3 - schedule.count true := r1
      omega
    have z2 : (race_run klass url
        { world := w, first := ConstructPhase.start,
          second := ConstructPhase.start } schedule).second.remaining = 0 := by
      have r2b : (race_run klass url
          { world := w, first := ConstructPhase.start,
            second := ConstructPhase.start } schedule).second.remaining ≤
          3 - schedule.count false := r2
      omega
    obtain ⟨a, ha⟩ := remaining_eq_zero _ z1
    obtain ⟨b, hb⟩ := remaining_eq_zero _ z2
    exact ⟨a, b, ha, hb⟩
  · intro w1 media winner hl
    simp [construct_insert, hl, FactoryWorld.log]

/-- Witness of C18: both callers miss the cache, the second builds and
inserts first, the first builds and finds the entry. -/
theorem C18_witness :
    (∃ r1 r2,
      (race_run example_factory_klass example_url1
        { world := example_factory_world_shared,
          first := ConstructPhase.start, second := ConstructPhase.start }
        [true, false, false, false, true, true]).first =
        ConstructPhase.done r1 ∧
      (race_run example_factory_klass example_url1
        { world := example_factory_world_shared,
          first := ConstructPhase.start, second := ConstructPhase.start }
        [true, false, false, false, true, true]).second =
        ConstructPhase.done r2) ∧
    (race_run example_factory_klass example_url1
      { world := example_factory_world_shared,
        first := ConstructPhase.start, second := ConstructPhase.start }
      [true, false, false, false, true, true]).world.next_media = 2 :=
  have h := C18_racing_constructs_return_one_media example_factory_klass
    example_url1 "rtsp://h:554/test?a=1" example_factory_world_shared
    [true, false, false, false, true, true] (fun _ => rfl) rfl
    List.nodup_nil
  ⟨h.2.2.1 (by decide) (by decide), by decide⟩

/-- Witness of C19: from the list 3, 7, 5, 7 the first 7 is removed and
3, 5, 7 stays. -/
theorem C19_witness :
    (unmanage_client example_impl example_world_list 7).server.clients =
      [3, 5, 7] :=
  (C19_unmanage_removes_first_occurrence example_impl example_world_list
    7).2.1 [3] [5, 7] rfl (by decide)

end GstRTSP
